import Mathlib

/-!
# wallet-service: the ledger transaction engine

A shallow embedding of the money-movement core of the wallet service:

* `internal/models/models.go`: the rows and the request bodies;
* `internal/repository/wallet_repository.go`, `transaction_repository.go`:
  the SQL statements, as functions on the table contents;
* `internal/repository/transaction_manager.go`: `ExecuteTransaction`;
* `internal/handlers/wallet_handler.go`: `Deposit`, `Withdraw`, `Transfer`
  and their `perform...` helpers;
* `internal/middleware/idempotency.go`: `IdempotencyGuard`, with the routes
  of `main.go` that put it in front of the three handlers;
* `internal/repository/mock_repository.go`: `MockUserRepository`;
* `internal/repository/transaction_repository.go`: the count step of
  `GetTransactionHistory`.

Conventions of the embedding.

* `uuid.UUID` is `Nat` (only equality is ever used), `uuid.Nil` is `0`.
* `decimal.Decimal` is `ℚ`: the decimals are a subring of the rationals and
  `Add`, `Sub`, `LessThan` are exact on them.
* `time.Time` is a `Nat` timestamp.
* A Go `error` is an `Option String`: `none` is `nil`, `some msg` carries
  the message; `fmt.Errorf("p: %w", err)` is `"p: " ++ msg`.
* Everything the outside world decides during one request (which storage
  call fails, which identifiers `uuid.New()` draws, the clock of the
  database) is read from an `Env`; what Redis decides while the guard runs
  (its clock, a failure of the call) is read from a `GuardEnv`.
-/

namespace WalletService

/-! ## models.go -/

abbrev UUID := Nat
abbrev Decimal := ℚ
abbrev CoinType := String
abbrev TransactionType := String
abbrev TransactionStatus := String
abbrev Direction := String

def CoinTypeBTC : CoinType := "BTC"
def CoinTypeETH : CoinType := "ETH"
def CoinTypeADA : CoinType := "ADA"

def TransactionTypeDeposit : TransactionType := "DEPOSIT"
def TransactionTypeWithdrawal : TransactionType := "WITHDRAWAL"
def TransactionTypeTransfer : TransactionType := "TRANSFER"

def TransactionStatusPending : TransactionStatus := "PENDING"
def TransactionStatusDone : TransactionStatus := "DONE"
def TransactionStatusFailed : TransactionStatus := "FAILED"

def DirectionIn : Direction := "IN"
def DirectionOut : Direction := "OUT"

structure Wallet where
  ID : UUID
  UserID : UUID
  CoinType : CoinType
  Amount : Decimal
  FrozenAmount : Decimal
  CreatedAt : Nat
deriving DecidableEq, Repr

/-- A row of `transactions`; `Kind` is the Go field `Type` (a reserved word here). -/
structure Transaction where
  ID : UUID
  Kind : TransactionType
  Status : TransactionStatus
  CreatedAt : Nat
deriving DecidableEq, Repr

structure TransactionEntry where
  ID : UUID
  TxnID : UUID
  WalletID : UUID
  Direction : Direction
  Amount : Decimal
  CounterpartyWalletID : Option UUID
  CreatedAt : Nat
deriving DecidableEq, Repr

structure DepositRequest where
  Amount : Decimal
deriving DecidableEq, Repr

structure WithdrawRequest where
  Amount : Decimal
deriving DecidableEq, Repr

structure TransferRequest where
  ReceiverWalletID : UUID
  Amount : Decimal
deriving DecidableEq, Repr

/-- Method `c.ShouldBindJSON(&req)` for a `DepositRequest`: `none` stands for a
body that is not decodable JSON. The tags `required,gt=0` sit on `Amount`,
whose type `decimal.Decimal` is a struct: the validator behind gin's binding
does not apply the tags of a field of struct kind, so a decoded body is kept
whatever its amount, zero and negative amounts included. -/
def DepositRequest.ShouldBindJSON (body : Option DepositRequest) : Option DepositRequest :=
  match body with
  | none => none
  | some req => some req

/-- Method `c.ShouldBindJSON(&req)` for a `WithdrawRequest`: as for a deposit,
the tags on the `decimal.Decimal` field `Amount` are not applied and every
decoded body is kept. -/
def WithdrawRequest.ShouldBindJSON (body : Option WithdrawRequest) : Option WithdrawRequest :=
  match body with
  | none => none
  | some req => some req

/-- Method `c.ShouldBindJSON(&req)` for a `TransferRequest`: `required` on
`ReceiverWalletID` (an array of 16 bytes) rejects the zero value `uuid.Nil`;
the tags on the `decimal.Decimal` field `Amount` are not applied. -/
def TransferRequest.ShouldBindJSON (body : Option TransferRequest) : Option TransferRequest :=
  match body with
  | none => none
  | some req => if req.ReceiverWalletID ≠ 0 then some req else none

/-! ## The database and the outside world -/

/-- The contents of the three tables the engine touches. -/
structure DB where
  wallets : List Wallet
  transactions : List Transaction
  transaction_entries : List TransactionEntry
deriving DecidableEq, Repr

/-- The calls `ExecuteTransaction` makes, in the order it makes them. -/
inductive Call where
  | BeginTx
  | fn
  | Commit
  | Rollback
deriving DecidableEq, Repr

/-- The committed database together with the journal of the calls made by
the transaction manager so far. -/
structure World where
  db : DB
  calls : List Call
deriving DecidableEq, Repr

/-- What the outside decides during one request. -/
structure Env where
  /-- the error, if any, of the k-th `r.db.QueryRow` of the request -/
  readErr : Nat → Option String
  /-- the error, if any, of `tm.db.BeginTx` -/
  beginErr : Option String
  /-- the error, if any, of the k-th statement run on the `*sql.Tx` -/
  execErr : Nat → Option String
  /-- the error, if any, of `tx.Commit` -/
  commitErr : Option String
  /-- the k-th value drawn by `uuid.New()` -/
  newUUID : Nat → UUID
  /-- the value the database gives to a `created_at` column -/
  now : Nat

/-- An open `*sql.Tx`: the tables as the transaction sees them, and the
number of statements already run on it. -/
structure Tx where
  pending : DB
  stmts : Nat
deriving DecidableEq, Repr

/-! ## wallet_repository.go -/

/-- Method `GetByID`: `SELECT ... FROM wallets WHERE id = $1`, first row;
`sql.ErrNoRows` gives `nil, nil`. -/
def WalletRepository.GetByID (db : DB) (readErr : Option String) (id : UUID) :
    Except String (Option Wallet) :=
  match readErr with
  | some e => .error ("failed to get wallet by ID: " ++ e)
  | none => .ok (db.wallets.find? (fun w => w.ID == id))

/-- The effect of `UPDATE wallets SET amount = $1 WHERE id = $2` on the table. -/
def setAmount (wallets : List Wallet) (walletID : UUID) (amount : Decimal) : List Wallet :=
  wallets.map (fun w => if w.ID = walletID then { w with Amount := amount } else w)

/-- Method `UpdateAmount`: runs the unconditional `UPDATE` on the transaction. -/
def WalletRepository.UpdateAmount (env : Env) (tx : Tx) (walletID : UUID) (amount : Decimal) :
    Option String × Tx :=
  match env.execErr tx.stmts with
  | some e => (some ("failed to update wallet amount: " ++ e), { tx with stmts := tx.stmts + 1 })
  | none =>
    (none, { pending := { tx.pending with wallets := setAmount tx.pending.wallets walletID amount },
             stmts := tx.stmts + 1 })

/-! ## transaction_repository.go -/

/-- Method `CreateTransaction`:
`INSERT INTO transactions (id, type, status) ... RETURNING created_at`;
the error of the statement is returned as it is. -/
def TransactionRepository.CreateTransaction (env : Env) (tx : Tx) (transaction : Transaction) :
    Option String × Tx :=
  match env.execErr tx.stmts with
  | some e => (some e, { tx with stmts := tx.stmts + 1 })
  | none =>
    (none, { pending := { tx.pending with
                          transactions := tx.pending.transactions ++
                            [{ transaction with CreatedAt := env.now }] },
             stmts := tx.stmts + 1 })

/-- Method `CreateTransactionEntry`:
`INSERT INTO transaction_entries (...) ... RETURNING created_at`. -/
def TransactionRepository.CreateTransactionEntry (env : Env) (tx : Tx) (entry : TransactionEntry) :
    Option String × Tx :=
  match env.execErr tx.stmts with
  | some e => (some e, { tx with stmts := tx.stmts + 1 })
  | none =>
    (none, { pending := { tx.pending with
                          transaction_entries := tx.pending.transaction_entries ++
                            [{ entry with CreatedAt := env.now }] },
             stmts := tx.stmts + 1 })

/-! ## transaction_manager.go -/

abbrev TransactionFunc := Tx → Option String × Tx

/-- Call `tx.Commit()`: when it succeeds the tables of the transaction become the
committed tables; when it fails nothing of the transaction is kept. -/
def Tx.Commit (env : Env) (tx : Tx) (w : World) : Option String × World :=
  match env.commitErr with
  | some e => (some e, { w with calls := w.calls ++ [Call.Commit] })
  | none => (none, { db := tx.pending, calls := w.calls ++ [Call.Commit] })

/-- Call `tx.Rollback()`: the tables of the transaction are dropped. -/
def Tx.Rollback (_tx : Tx) (w : World) : World :=
  { w with calls := w.calls ++ [Call.Rollback] }

/-- Method `ExecuteTransaction`: begin, run `fn` on the transaction, commit; the
deferred function rolls back whenever `committed` was not set. -/
def TransactionManager.ExecuteTransaction (env : Env) (fn : TransactionFunc) (w : World) :
    Option String × World :=
  let w0 : World := { w with calls := w.calls ++ [Call.BeginTx] }
  match env.beginErr with
  | some e => (some ("failed to begin transaction: " ++ e), w0)
  | none =>
    let tx : Tx := { pending := w.db, stmts := 0 }
    let r := fn tx
    let w1 : World := { w0 with calls := w0.calls ++ [Call.fn] }
    match r.1 with
    | some e => (some e, Tx.Rollback r.2 w1)
    | none =>
      match Tx.Commit env r.2 w1 with
      | (some e, w2) => (some ("failed to commit transaction: " ++ e), Tx.Rollback r.2 w2)
      | (none, w2) => (none, w2)

/-! ## wallet_handler.go -/

/-- The body of a JSON response (`gin.H`): an `error` message, or a
`message` with the `amount` of the request. -/
inductive H where
  | error (msg : String)
  | message (msg : String) (amount : Decimal)
deriving DecidableEq, Repr

structure Response where
  status : Nat
  body : H
deriving DecidableEq, Repr

/-- What a handler reads from the `*gin.Context` besides the body:
`wallet_id` is `uuid.Parse(c.Param("wallet_id"))` (`none`: parse error);
`user_id` is `c.Get("user_id")` (`none`: not set) followed by `uuid.Parse`
(`some none`: parse error). -/
structure Context where
  wallet_id : Option UUID
  user_id : Option (Option UUID)
deriving DecidableEq, Repr

/-- The closure `performDeposit` hands to `ExecuteTransaction`. -/
def WalletHandler.depositFn (env : Env) (wallet : Wallet) (amount : Decimal) : TransactionFunc :=
  fun tx =>
    let transaction : Transaction :=
      { ID := env.newUUID 0, Kind := TransactionTypeDeposit, Status := TransactionStatusDone,
        CreatedAt := 0 }
    match TransactionRepository.CreateTransaction env tx transaction with
    | (some e, tx) => (some ("failed to create transaction: " ++ e), tx)
    | (none, tx) =>
      let newAmount := wallet.Amount + amount
      match WalletRepository.UpdateAmount env tx wallet.ID newAmount with
      | (some e, tx) => (some ("failed to update wallet amount: " ++ e), tx)
      | (none, tx) =>
        let entry : TransactionEntry :=
          { ID := env.newUUID 1, TxnID := transaction.ID, WalletID := wallet.ID,
            Direction := DirectionIn, Amount := amount, CounterpartyWalletID := none,
            CreatedAt := 0 }
        match TransactionRepository.CreateTransactionEntry env tx entry with
        | (some e, tx) => (some ("failed to create transaction entry: " ++ e), tx)
        | (none, tx) => (none, tx)

def WalletHandler.performDeposit (env : Env) (wallet : Wallet) (amount : Decimal) (w : World) :
    Option String × World :=
  TransactionManager.ExecuteTransaction env (WalletHandler.depositFn env wallet amount) w

/-- The closure `performWithdrawal` hands to `ExecuteTransaction`. -/
def WalletHandler.withdrawalFn (env : Env) (wallet : Wallet) (amount : Decimal) :
    TransactionFunc :=
  fun tx =>
    let transaction : Transaction :=
      { ID := env.newUUID 0, Kind := TransactionTypeWithdrawal, Status := TransactionStatusDone,
        CreatedAt := 0 }
    match TransactionRepository.CreateTransaction env tx transaction with
    | (some e, tx) => (some ("failed to create transaction: " ++ e), tx)
    | (none, tx) =>
      let newAmount := wallet.Amount - amount
      match WalletRepository.UpdateAmount env tx wallet.ID newAmount with
      | (some e, tx) => (some ("failed to update wallet amount: " ++ e), tx)
      | (none, tx) =>
        let entry : TransactionEntry :=
          { ID := env.newUUID 1, TxnID := transaction.ID, WalletID := wallet.ID,
            Direction := DirectionOut, Amount := amount, CounterpartyWalletID := none,
            CreatedAt := 0 }
        match TransactionRepository.CreateTransactionEntry env tx entry with
        | (some e, tx) => (some ("failed to create transaction entry: " ++ e), tx)
        | (none, tx) => (none, tx)

def WalletHandler.performWithdrawal (env : Env) (wallet : Wallet) (amount : Decimal) (w : World) :
    Option String × World :=
  TransactionManager.ExecuteTransaction env (WalletHandler.withdrawalFn env wallet amount) w

/-- The closure `performTransfer` hands to `ExecuteTransaction`. -/
def WalletHandler.transferFn (env : Env) (senderWallet receiverWallet : Wallet)
    (amount : Decimal) : TransactionFunc :=
  fun tx =>
    let transaction : Transaction :=
      { ID := env.newUUID 0, Kind := TransactionTypeTransfer, Status := TransactionStatusDone,
        CreatedAt := 0 }
    match TransactionRepository.CreateTransaction env tx transaction with
    | (some e, tx) => (some ("failed to create transaction: " ++ e), tx)
    | (none, tx) =>
      let senderNewAmount := senderWallet.Amount - amount
      match WalletRepository.UpdateAmount env tx senderWallet.ID senderNewAmount with
      | (some e, tx) => (some ("failed to update sender wallet amount: " ++ e), tx)
      | (none, tx) =>
        let receiverNewAmount := receiverWallet.Amount + amount
        match WalletRepository.UpdateAmount env tx receiverWallet.ID receiverNewAmount with
        | (some e, tx) => (some ("failed to update receiver wallet amount: " ++ e), tx)
        | (none, tx) =>
          let senderEntry : TransactionEntry :=
            { ID := env.newUUID 1, TxnID := transaction.ID, WalletID := senderWallet.ID,
              Direction := DirectionOut, Amount := amount,
              CounterpartyWalletID := some receiverWallet.ID, CreatedAt := 0 }
          let receiverEntry : TransactionEntry :=
            { ID := env.newUUID 2, TxnID := transaction.ID, WalletID := receiverWallet.ID,
              Direction := DirectionIn, Amount := amount,
              CounterpartyWalletID := some senderWallet.ID, CreatedAt := 0 }
          match TransactionRepository.CreateTransactionEntry env tx senderEntry with
          | (some e, tx) => (some ("failed to create sender transaction entry: " ++ e), tx)
          | (none, tx) =>
            match TransactionRepository.CreateTransactionEntry env tx receiverEntry with
            | (some e, tx) => (some ("failed to create receiver transaction entry: " ++ e), tx)
            | (none, tx) => (none, tx)

def WalletHandler.performTransfer (env : Env) (senderWallet receiverWallet : Wallet)
    (amount : Decimal) (w : World) : Option String × World :=
  TransactionManager.ExecuteTransaction env
    (WalletHandler.transferFn env senderWallet receiverWallet amount) w

def WalletHandler.Deposit (env : Env) (c : Context) (body : Option DepositRequest) (w : World) :
    Response × World :=
  match c.wallet_id with
  | none => (⟨400, .error "Invalid wallet ID"⟩, w)
  | some walletID =>
  match DepositRequest.ShouldBindJSON body with
  | none => (⟨400, .error "Invalid request body"⟩, w)
  | some req =>
  match c.user_id with
  | none => (⟨401, .error "User ID not found"⟩, w)
  | some none => (⟨500, .error "Invalid user ID"⟩, w)
  | some (some userID) =>
  match WalletRepository.GetByID w.db (env.readErr 0) walletID with
  | .error _ => (⟨500, .error "Failed to get wallet"⟩, w)
  | .ok none => (⟨404, .error "Wallet not found"⟩, w)
  | .ok (some wallet) =>
  if wallet.UserID ≠ userID then (⟨403, .error "Access denied"⟩, w)
  else
    match WalletHandler.performDeposit env wallet req.Amount w with
    | (some e, w1) => (⟨500, .error ("Failed to process deposit: " ++ e)⟩, w1)
    | (none, w1) => (⟨200, .message "Deposit successful" req.Amount⟩, w1)

def WalletHandler.Withdraw (env : Env) (c : Context) (body : Option WithdrawRequest) (w : World) :
    Response × World :=
  match c.wallet_id with
  | none => (⟨400, .error "Invalid wallet ID"⟩, w)
  | some walletID =>
  match WithdrawRequest.ShouldBindJSON body with
  | none => (⟨400, .error "Invalid request body"⟩, w)
  | some req =>
  match c.user_id with
  | none => (⟨401, .error "User ID not found"⟩, w)
  | some none => (⟨500, .error "Invalid user ID"⟩, w)
  | some (some userID) =>
  match WalletRepository.GetByID w.db (env.readErr 0) walletID with
  | .error _ => (⟨500, .error "Failed to get wallet"⟩, w)
  | .ok none => (⟨404, .error "Wallet not found"⟩, w)
  | .ok (some wallet) =>
  if wallet.UserID ≠ userID then (⟨403, .error "Access denied"⟩, w)
  else if wallet.Amount < req.Amount then (⟨400, .error "Insufficient balance"⟩, w)
  else
    match WalletHandler.performWithdrawal env wallet req.Amount w with
    | (some e, w1) => (⟨500, .error ("Failed to process withdrawal: " ++ e)⟩, w1)
    | (none, w1) => (⟨200, .message "Withdrawal successful" req.Amount⟩, w1)

def WalletHandler.Transfer (env : Env) (c : Context) (body : Option TransferRequest) (w : World) :
    Response × World :=
  match c.wallet_id with
  | none => (⟨400, .error "Invalid wallet ID"⟩, w)
  | some walletID =>
  match TransferRequest.ShouldBindJSON body with
  | none => (⟨400, .error "Invalid request body"⟩, w)
  | some req =>
  match c.user_id with
  | none => (⟨401, .error "User ID not found"⟩, w)
  | some none => (⟨500, .error "Invalid user ID"⟩, w)
  | some (some userID) =>
  match WalletRepository.GetByID w.db (env.readErr 0) walletID with
  | .error _ => (⟨500, .error "Failed to get sender wallet"⟩, w)
  | .ok none => (⟨404, .error "Sender wallet not found"⟩, w)
  | .ok (some senderWallet) =>
  if senderWallet.UserID ≠ userID then (⟨403, .error "Access denied"⟩, w)
  else
  match WalletRepository.GetByID w.db (env.readErr 1) req.ReceiverWalletID with
  | .error _ => (⟨500, .error "Failed to get receiver wallet"⟩, w)
  | .ok none => (⟨404, .error "Receiver wallet not found"⟩, w)
  | .ok (some receiverWallet) =>
  if senderWallet.Amount < req.Amount then (⟨400, .error "Insufficient balance"⟩, w)
  else
    match WalletHandler.performTransfer env senderWallet receiverWallet req.Amount w with
    | (some e, w1) => (⟨500, .error ("Failed to process transfer: " ++ e)⟩, w1)
    | (none, w1) => (⟨200, .message "Transfer successful" req.Amount⟩, w1)

/-! ## middleware/idempotency.go and the guarded routes of main.go -/

/-- The Redis server as far as `SetNX` sees it: the keys, each with the time
(in milliseconds) at which it expires. -/
structure Redis where
  keys : List (String × Nat)
deriving DecidableEq, Repr

/-- What the outside decides while the guard runs. -/
structure GuardEnv where
  /-- the time, in milliseconds, at which the Redis server runs the command -/
  now : Nat
  /-- when the call fails: the value and the error that `Result()` returns -/
  setnxErr : Option (Bool × String)

/-- Whether `key` is held at time `now`: some entry for it has not expired. -/
def Redis.holds (r : Redis) (now : Nat) (key : String) : Bool :=
  r.keys.any (fun p => p.1 == key && now < p.2)

/-- Call `redisClient.SetNX(ctx, key, "1", ttl).Result()`, that is the Redis
command `SET key 1 PX ttl NX`: when the key is held nothing changes and the
value is `false`; otherwise the key is created, to expire `ttl` milliseconds
later, and the value is `true`. When the call fails the store is left as it
was and the value that comes with the error is whatever the outside says. -/
def Redis.SetNX (genv : GuardEnv) (r : Redis) (key : String) (ttl : Nat) :
    (Bool × Option String) × Redis :=
  match genv.setnxErr with
  | some (b, e) => ((b, some e), r)
  | none =>
    if r.holds genv.now key then ((false, none), r)
    else ((true, none), { keys := (key, genv.now + ttl) :: r.keys })

/-- What the guard reads from the `*gin.Context`: `user_id` is
`c.Get("user_id")` (`none`: not set), printed with `%s`; `idempotencyKey` is
`c.GetHeader("X-Idempotency-Key")` (the empty string when the header is
absent). -/
structure GuardContext where
  user_id : Option String
  idempotencyKey : String
deriving DecidableEq, Repr

/-- How the guard leaves the chain of handlers: it writes a response and calls
`c.Abort()`, or it stores the key under `"idempotency_key"` and calls
`c.Next()`. -/
inductive GuardOutcome where
  | abort (resp : Response)
  | next (idempotency_key : String)
deriving DecidableEq, Repr

/-- The handler returned by `IdempotencyGuard(redisClient)`; the time to live
`5*time.Second` is 5000 milliseconds. -/
def IdempotencyGuard (genv : GuardEnv) (r : Redis) (c : GuardContext) : GuardOutcome × Redis :=
  match c.user_id with
  | none => (.abort ⟨401, .error "User ID not found in context"⟩, r)
  | some userID =>
    if c.idempotencyKey = "" then
      (.abort ⟨400, .error "X-Idempotency-Key header required"⟩, r)
    else
      let redisKey := "txn_lock:" ++ userID ++ ":" ++ c.idempotencyKey
      match Redis.SetNX genv r redisKey 5000 with
      | ((_, some _), r1) => (.abort ⟨500, .error "Failed to check idempotency"⟩, r1)
      | ((false, none), r1) => (.abort ⟨409, .error "Duplicate request detected"⟩, r1)
      | ((true, none), r1) => (.next redisKey, r1)

/-- The two stores a guarded route works on. -/
structure Server where
  world : World
  redis : Redis
deriving DecidableEq, Repr

/-- A route `router.POST(path, middleware.IdempotencyGuard(redisClient), handler)`:
gin runs the guard and then, unless the guard aborted, the handler. -/
def guarded (genv : GuardEnv) (c : GuardContext) (handler : World → Response × World)
    (st : Server) : Response × Server :=
  match IdempotencyGuard genv st.redis c with
  | (.abort resp, r1) => (resp, { world := st.world, redis := r1 })
  | (.next _, r1) =>
    let res := handler st.world
    (res.1, { world := res.2, redis := r1 })

/-- A request as it reaches one of the guarded routes: the value stored under
`"user_id"`, the `X-Idempotency-Key` header and the parsed `wallet_id`
parameter. -/
structure Submission where
  user_id : Option String
  idempotencyKey : String
  wallet_id : Option UUID
deriving DecidableEq, Repr

/-- The three guarded routes of `main.go`, each with the JSON body it is sent. -/
inductive Route where
  | deposit (body : Option DepositRequest)
  | withdraw (body : Option WithdrawRequest)
  | transfer (body : Option TransferRequest)
deriving DecidableEq, Repr

/-- The handler registered behind the guard on each route. -/
def Route.handler (route : Route) (env : Env) (c : Context) (w : World) : Response × World :=
  match route with
  | .deposit body => WalletHandler.Deposit env c body w
  | .withdraw body => WalletHandler.Withdraw env c body w
  | .transfer body => WalletHandler.Transfer env c body w

/-- Serving one submission on a guarded route; `parse` is `uuid.Parse` on the
value stored under `"user_id"`. -/
def Route.serve (parse : String → Option UUID) (genv : GuardEnv) (env : Env) (route : Route)
    (s : Submission) (st : Server) : Response × Server :=
  guarded genv ⟨s.user_id, s.idempotencyKey⟩
    (route.handler env ⟨s.wallet_id, s.user_id.map parse⟩) st

/-! ## mock_repository.go -/

structure User where
  ID : UUID
  Name : String
  Email : String
  CreatedAt : Nat
deriving DecidableEq, Repr

/-- The mock of the user repository; `users` is the Go map from email to user. -/
structure MockUserRepository where
  users : String → Option User

def NewMockUserRepository : MockUserRepository :=
  { users := fun _ => none }

def MockUserRepository.GetByEmail (m : MockUserRepository) (email : String) :
    Option User × Option String :=
  match m.users email with
  | some user => (some user, none)
  | none => (none, none)

def MockUserRepository.Create (m : MockUserRepository) (user : User) :
    MockUserRepository × Option String :=
  ({ users := fun email => if email = user.Email then some user else m.users email }, none)

/-! ## transaction_repository.go: the count of the transaction history -/

/-- The value of one query argument (`interface{}`): a wallet id, a time or an
`int`. -/
inductive Arg where
  | uuid (id : UUID)
  | time (t : Nat)
  | int (n : Int)
deriving DecidableEq, Repr

/-- The request of `models.go`; `nil` pointers are `none`. -/
structure TransactionHistoryRequest where
  StartDate : Option Nat
  EndDate : Option Nat
  CounterpartyWalletID : Option UUID
  Limit : Option Int
  Offset : Option Int
deriving DecidableEq, Repr

/-- The local variables of `GetTransactionHistory` while the queries are built. -/
structure HistoryQuery where
  baseQuery : String
  countQuery : String
  args : List Arg
  argIndex : Nat
deriving DecidableEq, Repr

/-- The first part of `GetTransactionHistory`, up to the pagination: the two
queries and the arguments as they stand when the count query is run;
`fmt.Sprintf(" AND created_at >= $%d", argIndex)` prints `argIndex` in
decimal. -/
def TransactionRepository.historyQuery (walletID : UUID) (req : TransactionHistoryRequest) :
    HistoryQuery :=
  let q0 : HistoryQuery :=
    { baseQuery := "SELECT id, txn_id, wallet_id, direction, amount, counterparty_wallet_id, created_at FROM transaction_entries WHERE wallet_id = $1",
      countQuery := "SELECT COUNT(*) FROM transaction_entries WHERE wallet_id = $1",
      args := [Arg.uuid walletID],
      argIndex := 2 }
  let q1 : HistoryQuery :=
    match req.StartDate with
    | some t =>
      { baseQuery := q0.baseQuery ++ " AND created_at >= $" ++ toString q0.argIndex,
        countQuery := q0.countQuery ++ " AND created_at >= $" ++ toString q0.argIndex,
        args := q0.args ++ [Arg.time t],
        argIndex := q0.argIndex + 1 }
    | none => q0
  let q2 : HistoryQuery :=
    match req.EndDate with
    | some t =>
      { baseQuery := q1.baseQuery ++ " AND created_at <= $" ++ toString q1.argIndex,
        countQuery := q1.countQuery ++ " AND created_at <= $" ++ toString q1.argIndex,
        args := q1.args ++ [Arg.time t],
        argIndex := q1.argIndex + 1 }
    | none => q1
  let q3 : HistoryQuery :=
    match req.CounterpartyWalletID with
    | some id =>
      { baseQuery := q2.baseQuery ++ " AND counterparty_wallet_id = $" ++ toString q2.argIndex,
        countQuery := q2.countQuery ++ " AND counterparty_wallet_id = $" ++ toString q2.argIndex,
        args := q2.args ++ [Arg.uuid id],
        argIndex := q2.argIndex + 1 }
    | none => q2
  let q4 : HistoryQuery := { q3 with baseQuery := q3.baseQuery ++ " ORDER BY created_at DESC" }
  match req.Limit with
  | some limit =>
    let q5 : HistoryQuery :=
      { q4 with baseQuery := q4.baseQuery ++ " LIMIT $" ++ toString q4.argIndex,
                args := q4.args ++ [Arg.int limit],
                argIndex := q4.argIndex + 1 }
    match req.Offset with
    | some offset =>
      { q5 with baseQuery := q5.baseQuery ++ " OFFSET $" ++ toString q5.argIndex,
                args := q5.args ++ [Arg.int offset] }
    | none => q5
  | none => q4

/-- The Go slice expression `args[:high]`: it panics (`none`) unless
`0 <= high <= len(args)`. -/
def sliceTo (args : List Arg) (high : Int) : Option (List Arg) :=
  if 0 ≤ high ∧ high ≤ (args.length : Int) then some (args.take high.toNat) else none

/-- How the count step of `GetTransactionHistory` ends: a run-time panic, an
error returned, or the total scanned. -/
inductive CountResult where
  | panic
  | error (msg : String)
  | total (n : Nat)
deriving DecidableEq, Repr

/-- The entries that satisfy the condition of the count query: the wallet and
each filter that is present. -/
def countMatching (db : DB) (walletID : UUID) (req : TransactionHistoryRequest) :
    List TransactionEntry :=
  db.transaction_entries.filter (fun e =>
    e.WalletID == walletID &&
    (match req.StartDate with | some t => decide (t ≤ e.CreatedAt) | none => true) &&
    (match req.EndDate with | some t => decide (e.CreatedAt ≤ t) | none => true) &&
    (match req.CounterpartyWalletID with
      | some id => e.CounterpartyWalletID == some id
      | none => true))

/-- The count step of `GetTransactionHistory`:
`r.db.QueryRow(countQuery, args[:len(args)-2]...).Scan(&total)`. The slice
expression may panic; the database refuses a query whose number of arguments
is not the number of `$` parameters of its text; otherwise the total is the
number of entries that satisfy the condition of the query. -/
def TransactionRepository.historyTotal (db : DB) (readErr : Option String) (walletID : UUID)
    (req : TransactionHistoryRequest) : CountResult :=
  let q := TransactionRepository.historyQuery walletID req
  match sliceTo q.args ((q.args.length : Int) - 2) with
  | none => .panic
  | some countArgs =>
    match readErr with
    | some e => .error ("failed to get transaction count: " ++ e)
    | none =>
      if countArgs.length = q.countQuery.data.count '$' then
        .total (countMatching db walletID req).length
      else
        .error ("failed to get transaction count: wrong number of arguments")

/-- The request `GetTransactions` hands to the repository: only `Limit` and
`Offset` are ever set, each when its query parameter is present and
`strconv.Atoi` accepts it. -/
def WalletHandler.transactionsRequest (limit offset : Option Int) : TransactionHistoryRequest :=
  { StartDate := none, EndDate := none, CounterpartyWalletID := none,
    Limit := limit, Offset := offset }

/-! ## Notions used to state the properties -/

/-- No storage call of the unit of work of a deposit or a withdrawal fails. -/
def Env.noFault3 (env : Env) : Prop :=
  env.beginErr = none ∧ env.execErr 0 = none ∧ env.execErr 1 = none ∧ env.execErr 2 = none ∧
    env.commitErr = none

/-- No storage call of the unit of work of a transfer fails. -/
def Env.noFault5 (env : Env) : Prop :=
  env.beginErr = none ∧ env.execErr 0 = none ∧ env.execErr 1 = none ∧ env.execErr 2 = none ∧
    env.execErr 3 = none ∧ env.execErr 4 = none ∧ env.commitErr = none

/-- The signed amount of an entry: IN counts positive, OUT negative. -/
def signedAmount (e : TransactionEntry) : Decimal :=
  if e.Direction = DirectionIn then e.Amount
  else if e.Direction = DirectionOut then -e.Amount
  else 0

/-- The sum, with the sign of the direction, of the entries of transaction `txnID`. -/
def signedSum (txnID : UUID) (entries : List TransactionEntry) : Decimal :=
  ((entries.filter (fun e => e.TxnID == txnID)).map signedAmount).sum

/-- The sum of the stored amounts of all wallets. -/
def totalAmount (db : DB) : Decimal :=
  (db.wallets.map (fun x => x.Amount)).sum

/-- One money-movement request as it reaches its handler, together with what
the outside decides while it is served. -/
inductive Request where
  | deposit (env : Env) (c : Context) (body : Option DepositRequest)
  | withdraw (env : Env) (c : Context) (body : Option WithdrawRequest)
  | transfer (env : Env) (c : Context) (body : Option TransferRequest)

/-- Serving one request. -/
def Request.run : Request → World → Response × World
  | .deposit env c body, w => WalletHandler.Deposit env c body w
  | .withdraw env c body, w => WalletHandler.Withdraw env c body w
  | .transfer env c body, w => WalletHandler.Transfer env c body w

/-- Serving requests one after another. -/
def serve : List Request → World → World
  | [], w => w
  | q :: qs, w => serve qs (q.run w).2

/-- Every stored amount is non-negative. -/
def NonNegative (db : DB) : Prop :=
  ∀ x ∈ db.wallets, 0 ≤ x.Amount

/-- The amount carried by the decoded body of a deposit or of a transfer is
non-negative; nothing is asked of a withdrawal. -/
def Request.amountNonneg : Request → Prop
  | .deposit _ _ body => ∀ req, body = some req → 0 ≤ req.Amount
  | .withdraw _ _ _ => True
  | .transfer _ _ body => ∀ req, body = some req → 0 ≤ req.Amount

/-- A wallet row after a request, against the row before it: the identity, the
owner, the coin type, the frozen amount and the creation time are the same,
and so is the amount unless the wallet is one of those named. -/
def Wallet.framed (named : List UUID) (before after : Wallet) : Prop :=
  after.ID = before.ID ∧ after.UserID = before.UserID ∧ after.CoinType = before.CoinType ∧
    after.FrozenAmount = before.FrozenAmount ∧ after.CreatedAt = before.CreatedAt ∧
    (before.ID ∉ named → after.Amount = before.Amount)

/-- The wallets after a request, against the wallets before it: the same rows
in the same order (none created, none deleted), each framed. -/
def Frame (named : List UUID) (before after : List Wallet) : Prop :=
  List.Forall₂ (Wallet.framed named) before after

/-- The users created one after another in a mock repository. -/
def MockUserRepository.createAll (m : MockUserRepository) : List User → MockUserRepository
  | [] => m
  | u :: us => MockUserRepository.createAll (m.Create u).1 us

/-- The part of `Withdraw` that comes before `performWithdrawal`: parsing,
binding, the read of the wallet and the checks. It answers, or it hands over
the wallet it read and the amount of the request. -/
def WalletHandler.withdrawRead (env : Env) (c : Context) (body : Option WithdrawRequest)
    (w : World) : Except Response (Wallet × Decimal) :=
  match c.wallet_id with
  | none => .error ⟨400, .error "Invalid wallet ID"⟩
  | some walletID =>
  match WithdrawRequest.ShouldBindJSON body with
  | none => .error ⟨400, .error "Invalid request body"⟩
  | some req =>
  match c.user_id with
  | none => .error ⟨401, .error "User ID not found"⟩
  | some none => .error ⟨500, .error "Invalid user ID"⟩
  | some (some userID) =>
  match WalletRepository.GetByID w.db (env.readErr 0) walletID with
  | .error _ => .error ⟨500, .error "Failed to get wallet"⟩
  | .ok none => .error ⟨404, .error "Wallet not found"⟩
  | .ok (some wallet) =>
  if wallet.UserID ≠ userID then .error ⟨403, .error "Access denied"⟩
  else if wallet.Amount < req.Amount then .error ⟨400, .error "Insufficient balance"⟩
  else .ok (wallet, req.Amount)

/-- The rest of `Withdraw`: the unit of work on the wallet that was read, and
the answer. -/
def WalletHandler.withdrawWrite (env : Env) (wallet : Wallet) (amount : Decimal) (w : World) :
    Response × World :=
  match WalletHandler.performWithdrawal env wallet amount w with
  | (some e, w1) => (⟨500, .error ("Failed to process withdrawal: " ++ e)⟩, w1)
  | (none, w1) => (⟨200, .message "Withdrawal successful" amount⟩, w1)

/-- The same withdrawal (same path, same caller, same amount) served several
times one after another: the answers, in order, and the world at the end. -/
def withdrawInTurn (c : Context) (a : Decimal) : List Env → World → List Response × World
  | [], w => ([], w)
  | env :: envs, w =>
    let r := WalletHandler.Withdraw env c (some ⟨a⟩) w
    let rest := withdrawInTurn c a envs r.2
    (r.1 :: rest.1, rest.2)

/-- The second parts of withdrawals whose first parts have all been run
already: the units of work run one after another, each on the wallet its
request read. -/
def withdrawWrites :
    List (Env × Except Response (Wallet × Decimal)) → World → List Response × World
  | [], w => ([], w)
  | (_, .error resp) :: qs, w =>
    let rest := withdrawWrites qs w
    (resp :: rest.1, rest.2)
  | (env, .ok (wallet, amount)) :: qs, w =>
    let r := WalletHandler.withdrawWrite env wallet amount w
    let rest := withdrawWrites qs r.2
    (r.1 :: rest.1, rest.2)

/-- The same withdrawal submitted several times concurrently, in the
interleaving where every request reads the wallet before the first unit of
work starts: all the reads see the world `w`. -/
def withdrawRace (c : Context) (a : Decimal) (envs : List Env) (w : World) :
    List Response × World :=
  withdrawWrites (envs.map (fun env => (env, WalletHandler.withdrawRead env c (some ⟨a⟩) w))) w

/-- The values of the filters of a request that are present, in the order of
the query. -/
def filterArgs (req : TransactionHistoryRequest) : List Arg :=
  (req.StartDate.map Arg.time).toList ++ (req.EndDate.map Arg.time).toList ++
    (req.CounterpartyWalletID.map Arg.uuid).toList

/-! ## Sample data -/

/-- An environment in which no storage call fails. -/
def sampleEnv : Env :=
  { readErr := fun _ => none, beginErr := none, execErr := fun _ => none, commitErr := none,
    newUUID := fun k => 100 + k, now := 7 }

/-- Two wallets: wallet 1 of user 10 holds 100, wallet 2 of user 20 holds 0. -/
def sampleWorld : World :=
  { db := { wallets := [⟨1, 10, CoinTypeBTC, 100, 0, 0⟩, ⟨2, 20, CoinTypeBTC, 0, 0, 0⟩],
            transactions := [], transaction_entries := [] },
    calls := [] }

/-- The sample world after another request has lowered wallet 1 from 100 to 30. -/
def staleWorld : World :=
  { db := { wallets := [⟨1, 10, CoinTypeBTC, 30, 0, 0⟩, ⟨2, 20, CoinTypeBTC, 0, 0, 0⟩],
            transactions := [], transaction_entries := [] },
    calls := [] }

/-- The sample environment, except that the k-th statement of the unit of
work fails. -/
def execFaultEnv (k : Nat) : Env :=
  { sampleEnv with execErr := fun i => if i = k then some "connection reset" else none }

/-- The sample environment, except that the commit fails. -/
def commitFaultEnv : Env :=
  { sampleEnv with commitErr := some "connection reset" }

/-- The key the guard builds for a caller and a token. -/
def lockKey (userID token : String) : String :=
  "txn_lock:" ++ userID ++ ":" ++ token

/-- A guard environment at time 1000 in which Redis answers. -/
def sampleGuardEnv : GuardEnv :=
  { now := 1000, setnxErr := none }

/-- A guard environment in which Redis cannot be reached; the value that
comes with the error says "created". -/
def redisDownEnv : GuardEnv :=
  { now := 1000, setnxErr := some (true, "dial tcp: connection refused") }

/-- The sample world with an empty Redis. -/
def sampleServer : Server :=
  { world := sampleWorld, redis := { keys := [] } }

/-- A guard environment 2000 milliseconds after the sample one. -/
def laterGuardEnv : GuardEnv :=
  { now := 3000, setnxErr := none }

/-- The parse of the caller id of the samples: "u1" is user 10. -/
def sampleParse : String → Option UUID :=
  fun s => if s = "u1" then some 10 else none

/-- The sample environment, except that `uuid.New()` draws 200, 201, ... -/
def otherIdsEnv : Env :=
  { sampleEnv with newUUID := fun k => 200 + k }

/-! ## Lemmas on the tables -/

theorem setAmount_cons (x : Wallet) (xs : List Wallet) (id : UUID) (a : Decimal) :
    setAmount (x :: xs) id a =
      (if x.ID = id then { x with Amount := a } else x) :: setAmount xs id a := rfl

theorem find_setAmount_same (ws : List Wallet) (id : UUID) (a : Decimal) :
    (setAmount ws id a).find? (fun x => x.ID == id) =
      (ws.find? (fun x => x.ID == id)).map (fun x => { x with Amount := a }) := by
  induction ws with
  | nil => rfl
  | cons x xs ih =>
    rw [setAmount_cons]
    by_cases h : x.ID = id
    · rw [if_pos h, List.find?_cons_of_pos _ (by simpa using h),
        List.find?_cons_of_pos _ (by simpa using h)]
      rfl
    · rw [if_neg h, List.find?_cons_of_neg _ (by simpa using h),
        List.find?_cons_of_neg _ (by simpa using h), ih]

theorem find_setAmount_other (ws : List Wallet) (id id1 : UUID) (a : Decimal) (hne : id1 ≠ id) :
    (setAmount ws id a).find? (fun x => x.ID == id1) = ws.find? (fun x => x.ID == id1) := by
  induction ws with
  | nil => rfl
  | cons x xs ih =>
    rw [setAmount_cons]
    by_cases h1 : x.ID = id1
    · have h : ¬ x.ID = id := fun e => hne (h1.symm.trans e)
      rw [if_neg h, List.find?_cons_of_pos _ (by simpa using h1),
        List.find?_cons_of_pos _ (by simpa using h1)]
    · by_cases h : x.ID = id
      · rw [if_pos h, List.find?_cons_of_neg _ (by simpa using h1),
          List.find?_cons_of_neg _ (by simpa using h1), ih]
      · rw [if_neg h, List.find?_cons_of_neg _ (by simpa using h1),
          List.find?_cons_of_neg _ (by simpa using h1), ih]

/-! ## Lemmas on `ExecuteTransaction` -/

theorem execute_nil_iff (env : Env) (fn : TransactionFunc) (w : World) :
    (TransactionManager.ExecuteTransaction env fn w).1 = none ↔
      env.beginErr = none ∧ (fn ⟨w.db, 0⟩).1 = none ∧ env.commitErr = none := by
  unfold TransactionManager.ExecuteTransaction Tx.Commit Tx.Rollback
  cases hb : env.beginErr <;> cases hf : (fn ⟨w.db, 0⟩).1 <;> cases hc : env.commitErr <;> simp [hf]

theorem execute_ok (env : Env) (fn : TransactionFunc) (w : World)
    (hb : env.beginErr = none) (hf : (fn ⟨w.db, 0⟩).1 = none) (hc : env.commitErr = none) :
    TransactionManager.ExecuteTransaction env fn w =
      (none, ⟨(fn ⟨w.db, 0⟩).2.pending, w.calls ++ [Call.BeginTx, Call.fn, Call.Commit]⟩) := by
  unfold TransactionManager.ExecuteTransaction Tx.Commit Tx.Rollback
  simp [hb, hf, hc]

theorem execute_err_db (env : Env) (fn : TransactionFunc) (w : World)
    (h : (TransactionManager.ExecuteTransaction env fn w).1 ≠ none) :
    (TransactionManager.ExecuteTransaction env fn w).2.db = w.db := by
  revert h
  unfold TransactionManager.ExecuteTransaction Tx.Commit Tx.Rollback
  cases hb : env.beginErr <;> cases hf : (fn ⟨w.db, 0⟩).1 <;> cases hc : env.commitErr <;> simp [hf]

/-! ## Lemmas on the three work functions -/

theorem depositFn_nil_iff (env : Env) (wallet : Wallet) (a : Decimal) (tx : Tx) :
    (WalletHandler.depositFn env wallet a tx).1 = none ↔
      env.execErr tx.stmts = none ∧ env.execErr (tx.stmts + 1) = none ∧
        env.execErr (tx.stmts + 2) = none := by
  unfold WalletHandler.depositFn TransactionRepository.CreateTransaction
    WalletRepository.UpdateAmount TransactionRepository.CreateTransactionEntry
  cases h0 : env.execErr tx.stmts <;> cases h1 : env.execErr (tx.stmts + 1) <;>
    cases h2 : env.execErr (tx.stmts + 2) <;> simp [h0, h1, h2]

theorem depositFn_pending (env : Env) (wallet : Wallet) (a : Decimal) (tx : Tx)
    (h0 : env.execErr tx.stmts = none) (h1 : env.execErr (tx.stmts + 1) = none)
    (h2 : env.execErr (tx.stmts + 2) = none) :
    (WalletHandler.depositFn env wallet a tx).2.pending =
      { wallets := setAmount tx.pending.wallets wallet.ID (wallet.Amount + a),
        transactions := tx.pending.transactions ++
          [⟨env.newUUID 0, TransactionTypeDeposit, TransactionStatusDone, env.now⟩],
        transaction_entries := tx.pending.transaction_entries ++
          [⟨env.newUUID 1, env.newUUID 0, wallet.ID, DirectionIn, a, none, env.now⟩] } := by
  unfold WalletHandler.depositFn TransactionRepository.CreateTransaction
    WalletRepository.UpdateAmount TransactionRepository.CreateTransactionEntry
  simp [h0, h1, h2]

theorem withdrawalFn_nil_iff (env : Env) (wallet : Wallet) (a : Decimal) (tx : Tx) :
    (WalletHandler.withdrawalFn env wallet a tx).1 = none ↔
      env.execErr tx.stmts = none ∧ env.execErr (tx.stmts + 1) = none ∧
        env.execErr (tx.stmts + 2) = none := by
  unfold WalletHandler.withdrawalFn TransactionRepository.CreateTransaction
    WalletRepository.UpdateAmount TransactionRepository.CreateTransactionEntry
  cases h0 : env.execErr tx.stmts <;> cases h1 : env.execErr (tx.stmts + 1) <;>
    cases h2 : env.execErr (tx.stmts + 2) <;> simp [h0, h1, h2]

theorem withdrawalFn_pending (env : Env) (wallet : Wallet) (a : Decimal) (tx : Tx)
    (h0 : env.execErr tx.stmts = none) (h1 : env.execErr (tx.stmts + 1) = none)
    (h2 : env.execErr (tx.stmts + 2) = none) :
    (WalletHandler.withdrawalFn env wallet a tx).2.pending =
      { wallets := setAmount tx.pending.wallets wallet.ID (wallet.Amount - a),
        transactions := tx.pending.transactions ++
          [⟨env.newUUID 0, TransactionTypeWithdrawal, TransactionStatusDone, env.now⟩],
        transaction_entries := tx.pending.transaction_entries ++
          [⟨env.newUUID 1, env.newUUID 0, wallet.ID, DirectionOut, a, none, env.now⟩] } := by
  unfold WalletHandler.withdrawalFn TransactionRepository.CreateTransaction
    WalletRepository.UpdateAmount TransactionRepository.CreateTransactionEntry
  simp [h0, h1, h2]

theorem transferFn_nil_iff (env : Env) (s r : Wallet) (a : Decimal) (tx : Tx) :
    (WalletHandler.transferFn env s r a tx).1 = none ↔
      env.execErr tx.stmts = none ∧ env.execErr (tx.stmts + 1) = none ∧
        env.execErr (tx.stmts + 2) = none ∧ env.execErr (tx.stmts + 3) = none ∧
        env.execErr (tx.stmts + 4) = none := by
  unfold WalletHandler.transferFn TransactionRepository.CreateTransaction
    WalletRepository.UpdateAmount TransactionRepository.CreateTransactionEntry
  cases h0 : env.execErr tx.stmts <;> cases h1 : env.execErr (tx.stmts + 1) <;>
    cases h2 : env.execErr (tx.stmts + 2) <;> cases h3 : env.execErr (tx.stmts + 3) <;>
    cases h4 : env.execErr (tx.stmts + 4) <;> simp [h0, h1, h2, h3, h4]

theorem transferFn_pending (env : Env) (s r : Wallet) (a : Decimal) (tx : Tx)
    (h0 : env.execErr tx.stmts = none) (h1 : env.execErr (tx.stmts + 1) = none)
    (h2 : env.execErr (tx.stmts + 2) = none) (h3 : env.execErr (tx.stmts + 3) = none)
    (h4 : env.execErr (tx.stmts + 4) = none) :
    (WalletHandler.transferFn env s r a tx).2.pending =
      { wallets := setAmount (setAmount tx.pending.wallets s.ID (s.Amount - a)) r.ID (r.Amount + a),
        transactions := tx.pending.transactions ++
          [⟨env.newUUID 0, TransactionTypeTransfer, TransactionStatusDone, env.now⟩],
        transaction_entries := tx.pending.transaction_entries ++
          [⟨env.newUUID 1, env.newUUID 0, s.ID, DirectionOut, a, some r.ID, env.now⟩,
           ⟨env.newUUID 2, env.newUUID 0, r.ID, DirectionIn, a, some s.ID, env.now⟩] } := by
  unfold WalletHandler.transferFn TransactionRepository.CreateTransaction
    WalletRepository.UpdateAmount TransactionRepository.CreateTransactionEntry
  simp [h0, h1, h2, h3, h4]

theorem performDeposit_nil_iff (env : Env) (wallet : Wallet) (a : Decimal) (w : World) :
    (WalletHandler.performDeposit env wallet a w).1 = none ↔ env.noFault3 := by
  unfold WalletHandler.performDeposit Env.noFault3
  rw [execute_nil_iff, depositFn_nil_iff]
  simp only [Nat.zero_add]
  tauto

theorem performDeposit_ok (env : Env) (wallet : Wallet) (a : Decimal) (w : World)
    (h : env.noFault3) :
    WalletHandler.performDeposit env wallet a w =
      (none,
        ⟨{ wallets := setAmount w.db.wallets wallet.ID (wallet.Amount + a),
           transactions := w.db.transactions ++
             [⟨env.newUUID 0, TransactionTypeDeposit, TransactionStatusDone, env.now⟩],
           transaction_entries := w.db.transaction_entries ++
             [⟨env.newUUID 1, env.newUUID 0, wallet.ID, DirectionIn, a, none, env.now⟩] },
         w.calls ++ [Call.BeginTx, Call.fn, Call.Commit]⟩) := by
  obtain ⟨hb, h0, h1, h2, hc⟩ := h
  unfold WalletHandler.performDeposit
  rw [execute_ok env _ w hb ((depositFn_nil_iff env wallet a ⟨w.db, 0⟩).2 ⟨h0, h1, h2⟩) hc,
    depositFn_pending env wallet a ⟨w.db, 0⟩ h0 h1 h2]

theorem deposit_inv (env : Env) (c : Context) (body : Option DepositRequest) (w : World)
    (h : (WalletHandler.Deposit env c body w).1.status = 200) :
    ∃ walletID userID a wallet,
      c.wallet_id = some walletID ∧ c.user_id = some (some userID) ∧ body = some ⟨a⟩ ∧
      WalletRepository.GetByID w.db (env.readErr 0) walletID = .ok (some wallet) ∧
      wallet.UserID = userID ∧ env.noFault3 ∧
      WalletHandler.Deposit env c body w =
        (⟨200, .message "Deposit successful" a⟩,
          (WalletHandler.performDeposit env wallet a w).2) := by
  obtain ⟨wid, uid⟩ := c
  unfold WalletHandler.Deposit at h ⊢
  cases wid with
  | none => simp at h
  | some walletID =>
    cases body with
    | none => simp [DepositRequest.ShouldBindJSON] at h
    | some req =>
      obtain ⟨a⟩ := req
      cases uid with
      | none => simp [DepositRequest.ShouldBindJSON] at h
      | some uid1 =>
        cases uid1 with
        | none => simp [DepositRequest.ShouldBindJSON] at h
        | some userID =>
          cases hg : WalletRepository.GetByID w.db (env.readErr 0) walletID with
          | error e => simp [DepositRequest.ShouldBindJSON, hg] at h
          | ok ow =>
            cases ow with
            | none => simp [DepositRequest.ShouldBindJSON, hg] at h
            | some wallet =>
              by_cases ho : wallet.UserID = userID
              · cases hp : WalletHandler.performDeposit env wallet a w with
                | mk e w1 =>
                  cases e with
                  | some e => simp [DepositRequest.ShouldBindJSON, hg, ho, hp] at h
                  | none =>
                    refine ⟨walletID, userID, a, wallet, rfl, rfl, rfl, hg, ho, ?_, ?_⟩
                    · exact (performDeposit_nil_iff env wallet a w).1 (by rw [hp])
                    · simp [DepositRequest.ShouldBindJSON, hg, ho, hp]
              · simp [DepositRequest.ShouldBindJSON, hg, ho] at h

theorem performDeposit_err_db (env : Env) (wallet : Wallet) (a : Decimal) (w : World)
    (h : (WalletHandler.performDeposit env wallet a w).1 ≠ none) :
    (WalletHandler.performDeposit env wallet a w).2.db = w.db :=
  execute_err_db env _ w h

theorem deposit_ok_or_db (env : Env) (c : Context) (body : Option DepositRequest) (w : World) :
    (WalletHandler.Deposit env c body w).1.status = 200 ∨
      (WalletHandler.Deposit env c body w).2.db = w.db := by
  unfold WalletHandler.Deposit
  repeat' split
  all_goals first | exact Or.inr rfl | exact Or.inl rfl | skip
  rename_i e w1 hp
  have := performDeposit_err_db env _ _ w (by rw [hp]; simp)
  rw [hp] at this
  exact Or.inr this

theorem performWithdrawal_nil_iff (env : Env) (wallet : Wallet) (a : Decimal) (w : World) :
    (WalletHandler.performWithdrawal env wallet a w).1 = none ↔ env.noFault3 := by
  unfold WalletHandler.performWithdrawal Env.noFault3
  rw [execute_nil_iff, withdrawalFn_nil_iff]
  simp only [Nat.zero_add]
  tauto

theorem performWithdrawal_ok (env : Env) (wallet : Wallet) (a : Decimal) (w : World)
    (h : env.noFault3) :
    WalletHandler.performWithdrawal env wallet a w =
      (none,
        ⟨{ wallets := setAmount w.db.wallets wallet.ID (wallet.Amount - a),
           transactions := w.db.transactions ++
             [⟨env.newUUID 0, TransactionTypeWithdrawal, TransactionStatusDone, env.now⟩],
           transaction_entries := w.db.transaction_entries ++
             [⟨env.newUUID 1, env.newUUID 0, wallet.ID, DirectionOut, a, none, env.now⟩] },
         w.calls ++ [Call.BeginTx, Call.fn, Call.Commit]⟩) := by
  obtain ⟨hb, h0, h1, h2, hc⟩ := h
  unfold WalletHandler.performWithdrawal
  rw [execute_ok env _ w hb ((withdrawalFn_nil_iff env wallet a ⟨w.db, 0⟩).2 ⟨h0, h1, h2⟩) hc,
    withdrawalFn_pending env wallet a ⟨w.db, 0⟩ h0 h1 h2]

theorem performWithdrawal_err_db (env : Env) (wallet : Wallet) (a : Decimal) (w : World)
    (h : (WalletHandler.performWithdrawal env wallet a w).1 ≠ none) :
    (WalletHandler.performWithdrawal env wallet a w).2.db = w.db :=
  execute_err_db env _ w h

theorem performTransfer_nil_iff (env : Env) (s r : Wallet) (a : Decimal) (w : World) :
    (WalletHandler.performTransfer env s r a w).1 = none ↔ env.noFault5 := by
  unfold WalletHandler.performTransfer Env.noFault5
  rw [execute_nil_iff, transferFn_nil_iff]
  simp only [Nat.zero_add]
  tauto

theorem performTransfer_ok (env : Env) (s r : Wallet) (a : Decimal) (w : World)
    (h : env.noFault5) :
    WalletHandler.performTransfer env s r a w =
      (none,
        ⟨{ wallets := setAmount (setAmount w.db.wallets s.ID (s.Amount - a)) r.ID (r.Amount + a),
           transactions := w.db.transactions ++
             [⟨env.newUUID 0, TransactionTypeTransfer, TransactionStatusDone, env.now⟩],
           transaction_entries := w.db.transaction_entries ++
             [⟨env.newUUID 1, env.newUUID 0, s.ID, DirectionOut, a, some r.ID, env.now⟩,
              ⟨env.newUUID 2, env.newUUID 0, r.ID, DirectionIn, a, some s.ID, env.now⟩] },
         w.calls ++ [Call.BeginTx, Call.fn, Call.Commit]⟩) := by
  obtain ⟨hb, h0, h1, h2, h3, h4, hc⟩ := h
  unfold WalletHandler.performTransfer
  rw [execute_ok env _ w hb
      ((transferFn_nil_iff env s r a ⟨w.db, 0⟩).2 ⟨h0, h1, h2, h3, h4⟩) hc,
    transferFn_pending env s r a ⟨w.db, 0⟩ h0 h1 h2 h3 h4]

theorem performTransfer_err_db (env : Env) (s r : Wallet) (a : Decimal) (w : World)
    (h : (WalletHandler.performTransfer env s r a w).1 ≠ none) :
    (WalletHandler.performTransfer env s r a w).2.db = w.db :=
  execute_err_db env _ w h

theorem withdraw_inv (env : Env) (c : Context) (body : Option WithdrawRequest) (w : World)
    (h : (WalletHandler.Withdraw env c body w).1.status = 200) :
    ∃ walletID userID a wallet,
      c.wallet_id = some walletID ∧ c.user_id = some (some userID) ∧ body = some ⟨a⟩ ∧
      WalletRepository.GetByID w.db (env.readErr 0) walletID = .ok (some wallet) ∧
      wallet.UserID = userID ∧ a ≤ wallet.Amount ∧ env.noFault3 ∧
      WalletHandler.Withdraw env c body w =
        (⟨200, .message "Withdrawal successful" a⟩,
          (WalletHandler.performWithdrawal env wallet a w).2) := by
  obtain ⟨wid, uid⟩ := c
  unfold WalletHandler.Withdraw at h ⊢
  cases wid with
  | none => simp at h
  | some walletID =>
    cases body with
    | none => simp [WithdrawRequest.ShouldBindJSON] at h
    | some req =>
      obtain ⟨a⟩ := req
      cases uid with
      | none => simp [WithdrawRequest.ShouldBindJSON] at h
      | some uid1 =>
        cases uid1 with
        | none => simp [WithdrawRequest.ShouldBindJSON] at h
        | some userID =>
          cases hg : WalletRepository.GetByID w.db (env.readErr 0) walletID with
          | error e => simp [WithdrawRequest.ShouldBindJSON, hg] at h
          | ok ow =>
            cases ow with
            | none => simp [WithdrawRequest.ShouldBindJSON, hg] at h
            | some wallet =>
              by_cases ho : wallet.UserID = userID
              · by_cases hlt : wallet.Amount < a
                · simp [WithdrawRequest.ShouldBindJSON, hg, ho, hlt] at h
                · cases hp : WalletHandler.performWithdrawal env wallet a w with
                  | mk e w1 =>
                    cases e with
                    | some e =>
                      simp [WithdrawRequest.ShouldBindJSON, hg, ho, hlt, hp] at h
                    | none =>
                      refine ⟨walletID, userID, a, wallet, rfl, rfl, rfl, hg, ho,
                        not_lt.1 hlt, ?_, ?_⟩
                      · exact (performWithdrawal_nil_iff env wallet a w).1 (by rw [hp])
                      · simp [WithdrawRequest.ShouldBindJSON, hg, ho, hlt, hp]
              · simp [WithdrawRequest.ShouldBindJSON, hg, ho] at h

theorem withdraw_ok_or_db (env : Env) (c : Context) (body : Option WithdrawRequest)
    (w : World) :
    (WalletHandler.Withdraw env c body w).1.status = 200 ∨
      (WalletHandler.Withdraw env c body w).2.db = w.db := by
  unfold WalletHandler.Withdraw
  repeat' split
  all_goals first | exact Or.inr rfl | exact Or.inl rfl | skip
  rename_i e w1 hp
  have := performWithdrawal_err_db env _ _ w (by rw [hp]; simp)
  rw [hp] at this
  exact Or.inr this

theorem transfer_inv (env : Env) (c : Context) (body : Option TransferRequest) (w : World)
    (h : (WalletHandler.Transfer env c body w).1.status = 200) :
    ∃ s userID r a sw rw,
      c.wallet_id = some s ∧ c.user_id = some (some userID) ∧ body = some ⟨r, a⟩ ∧
      r ≠ 0 ∧
      WalletRepository.GetByID w.db (env.readErr 0) s = .ok (some sw) ∧
      sw.UserID = userID ∧
      WalletRepository.GetByID w.db (env.readErr 1) r = .ok (some rw) ∧
      a ≤ sw.Amount ∧ env.noFault5 ∧
      WalletHandler.Transfer env c body w =
        (⟨200, .message "Transfer successful" a⟩,
          (WalletHandler.performTransfer env sw rw a w).2) := by
  obtain ⟨wid, uid⟩ := c
  unfold WalletHandler.Transfer at h ⊢
  cases wid with
  | none => simp at h
  | some s =>
    cases body with
    | none => simp [TransferRequest.ShouldBindJSON] at h
    | some req =>
      obtain ⟨r, a⟩ := req
      by_cases hv : r ≠ 0
      · cases uid with
        | none => simp [TransferRequest.ShouldBindJSON, hv] at h
        | some uid1 =>
          cases uid1 with
          | none => simp [TransferRequest.ShouldBindJSON, hv] at h
          | some userID =>
            cases hg : WalletRepository.GetByID w.db (env.readErr 0) s with
            | error e => simp [TransferRequest.ShouldBindJSON, hv, hg] at h
            | ok ow =>
              cases ow with
              | none => simp [TransferRequest.ShouldBindJSON, hv, hg] at h
              | some sw =>
                by_cases ho : sw.UserID = userID
                · cases hg1 : WalletRepository.GetByID w.db (env.readErr 1) r with
                  | error e => simp [TransferRequest.ShouldBindJSON, hv, hg, ho, hg1] at h
                  | ok ow1 =>
                    cases ow1 with
                    | none => simp [TransferRequest.ShouldBindJSON, hv, hg, ho, hg1] at h
                    | some rw =>
                      by_cases hlt : sw.Amount < a
                      · simp [TransferRequest.ShouldBindJSON, hv, hg, ho, hg1, hlt] at h
                      · cases hp : WalletHandler.performTransfer env sw rw a w with
                        | mk e w1 =>
                          cases e with
                          | some e =>
                            simp [TransferRequest.ShouldBindJSON, hv, hg, ho, hg1, hlt, hp] at h
                          | none =>
                            refine ⟨s, userID, r, a, sw, rw, rfl, rfl, rfl, hv, hg, ho,
                              hg1, not_lt.1 hlt, ?_, ?_⟩
                            · exact (performTransfer_nil_iff env sw rw a w).1 (by rw [hp])
                            · simp [TransferRequest.ShouldBindJSON, hv, hg, ho, hg1, hlt, hp]
                · simp [TransferRequest.ShouldBindJSON, hv, hg, ho] at h
      · simp [TransferRequest.ShouldBindJSON, hv] at h

theorem transfer_ok_or_db (env : Env) (c : Context) (body : Option TransferRequest)
    (w : World) :
    (WalletHandler.Transfer env c body w).1.status = 200 ∨
      (WalletHandler.Transfer env c body w).2.db = w.db := by
  unfold WalletHandler.Transfer
  repeat' split
  all_goals first | exact Or.inr rfl | exact Or.inl rfl | skip
  rename_i e w1 hp
  have := performTransfer_err_db env _ _ _ w (by rw [hp]; simp)
  rw [hp] at this
  exact Or.inr this

theorem getByID_some (db : DB) (readErr : Option String) (id : UUID) (wallet : Wallet)
    (h : WalletRepository.GetByID db readErr id = .ok (some wallet)) :
    db.wallets.find? (fun x => x.ID == id) = some wallet ∧ wallet.ID = id ∧
      wallet ∈ db.wallets := by
  unfold WalletRepository.GetByID at h
  cases hr : readErr with
  | some e => simp [hr] at h
  | none =>
    have hfind : db.wallets.find? (fun x => x.ID == id) = some wallet := by
      simpa [hr] using h
    refine ⟨hfind, ?_, List.mem_of_find?_eq_some hfind⟩
    have := List.find?_some hfind
    simpa using this

theorem getByID_setAmount_same (db : DB) (id : UUID) (wallet : Wallet) (a : Decimal)
    (ts : List Transaction) (es : List TransactionEntry)
    (h : db.wallets.find? (fun x => x.ID == id) = some wallet) :
    WalletRepository.GetByID ⟨setAmount db.wallets id a, ts, es⟩ none id =
      .ok (some { wallet with Amount := a }) := by
  simp only [WalletRepository.GetByID]
  rw [find_setAmount_same, h]
  rfl

theorem setAmount_nonneg (ws : List Wallet) (id : UUID) (a : Decimal)
    (h : ∀ x ∈ ws, 0 ≤ x.Amount) (ha : 0 ≤ a) :
    ∀ x ∈ setAmount ws id a, 0 ≤ x.Amount := by
  intro x hx
  simp only [setAmount, List.mem_map] at hx
  obtain ⟨y, hy, rfl⟩ := hx
  by_cases hid : y.ID = id
  · simpa [hid] using ha
  · simpa [hid] using h y hy

theorem deposit_nonneg (env : Env) (c : Context) (body : Option DepositRequest) (w : World)
    (hb : ∀ req, body = some req → 0 ≤ req.Amount)
    (h : NonNegative w.db) : NonNegative (WalletHandler.Deposit env c body w).2.db := by
  rcases deposit_ok_or_db env c body w with hok | hdb
  · obtain ⟨_, _, a, wallet, _, _, hbody, hread, _, hnf, heq⟩ := deposit_inv env c body w hok
    obtain ⟨_, _, hmem⟩ := getByID_some _ _ _ _ hread
    rw [heq, performDeposit_ok env wallet a w hnf]
    exact setAmount_nonneg _ _ _ h (add_nonneg (h wallet hmem) (hb ⟨a⟩ hbody))
  · unfold NonNegative
    rw [hdb]
    exact h

theorem withdraw_nonneg (env : Env) (c : Context) (body : Option WithdrawRequest) (w : World)
    (h : NonNegative w.db) : NonNegative (WalletHandler.Withdraw env c body w).2.db := by
  rcases withdraw_ok_or_db env c body w with hok | hdb
  · obtain ⟨_, _, a, wallet, _, _, _, _, _, hle, hnf, heq⟩ := withdraw_inv env c body w hok
    rw [heq, performWithdrawal_ok env wallet a w hnf]
    exact setAmount_nonneg _ _ _ h (sub_nonneg.2 hle)
  · unfold NonNegative
    rw [hdb]
    exact h

theorem transfer_nonneg (env : Env) (c : Context) (body : Option TransferRequest) (w : World)
    (hb : ∀ req, body = some req → 0 ≤ req.Amount)
    (h : NonNegative w.db) : NonNegative (WalletHandler.Transfer env c body w).2.db := by
  rcases transfer_ok_or_db env c body w with hok | hdb
  · obtain ⟨_, _, r, a, sw, rw, _, _, hbody, _, _, _, hr, hle, hnf, heq⟩ :=
      transfer_inv env c body w hok
    obtain ⟨_, _, hmem⟩ := getByID_some _ _ _ _ hr
    rw [heq, performTransfer_ok env sw rw a w hnf]
    exact setAmount_nonneg _ _ _ (setAmount_nonneg _ _ _ h (sub_nonneg.2 hle))
      (add_nonneg (h rw hmem) (hb ⟨r, a⟩ hbody))
  · unfold NonNegative
    rw [hdb]
    exact h

theorem serve_nonneg (qs : List Request) (w : World)
    (hqs : ∀ q ∈ qs, q.amountNonneg) (h : NonNegative w.db) : NonNegative (serve qs w).db := by
  induction qs generalizing w with
  | nil => exact h
  | cons q qs ih =>
    have hq := hqs q (List.mem_cons_self _ _)
    apply ih _ (fun p hp => hqs p (List.mem_cons_of_mem _ hp))
    cases q with
    | deposit env c body => exact deposit_nonneg env c body w hq h
    | withdraw env c body => exact withdraw_nonneg env c body w h
    | transfer env c body => exact transfer_nonneg env c body w hq h

theorem execute_fn_err (env : Env) (fn : TransactionFunc) (w : World)
    (hb : env.beginErr = none) (hf : (fn ⟨w.db, 0⟩).1 ≠ none) :
    (TransactionManager.ExecuteTransaction env fn w).1 = (fn ⟨w.db, 0⟩).1 ∧
      (TransactionManager.ExecuteTransaction env fn w).2 =
        ⟨w.db, w.calls ++ [Call.BeginTx, Call.fn, Call.Rollback]⟩ := by
  unfold TransactionManager.ExecuteTransaction Tx.Commit Tx.Rollback
  cases hfe : (fn ⟨w.db, 0⟩).1 with
  | none => exact absurd hfe hf
  | some e => simp [hb, hfe]

/-! ## Transfers and the total of the stored amounts -/

theorem setAmount_ids (ws : List Wallet) (id : UUID) (a : Decimal) :
    (setAmount ws id a).map (fun x => x.ID) = ws.map (fun x => x.ID) := by
  induction ws with
  | nil => rfl
  | cons x xs ih =>
    rw [setAmount_cons, List.map_cons, List.map_cons, ih]
    by_cases h : x.ID = id
    · rw [if_pos h]
    · rw [if_neg h]

theorem setAmount_absent (ws : List Wallet) (id : UUID) (a : Decimal)
    (h : id ∉ ws.map (fun x => x.ID)) : setAmount ws id a = ws := by
  induction ws with
  | nil => rfl
  | cons x xs ih =>
    rw [List.map_cons, List.mem_cons, not_or] at h
    rw [setAmount_cons, if_neg (fun e => h.1 e.symm), ih h.2]

theorem total_setAmount (ws : List Wallet) (id : UUID) (a : Decimal) (old : Wallet)
    (hnd : (ws.map (fun x => x.ID)).Nodup)
    (hfind : ws.find? (fun x => x.ID == id) = some old) :
    ((setAmount ws id a).map (fun x => x.Amount)).sum =
      (ws.map (fun x => x.Amount)).sum - old.Amount + a := by
  induction ws with
  | nil => simp at hfind
  | cons x xs ih =>
    rw [List.map_cons, List.nodup_cons] at hnd
    rw [setAmount_cons]
    by_cases h : x.ID = id
    · rw [List.find?_cons_of_pos _ (by simpa using h)] at hfind
      have hx : x = old := Option.some.inj hfind
      subst hx
      rw [if_pos h, setAmount_absent xs id a (by rw [← h]; exact hnd.1)]
      simp only [List.map_cons, List.sum_cons]
      ring
    · rw [List.find?_cons_of_neg _ (by simpa using h)] at hfind
      rw [if_neg h]
      simp only [List.map_cons, List.sum_cons]
      rw [ih hnd.2 hfind]
      ring

/-- Between two different wallets, in a table without repeated wallet ids, a
successful transfer leaves the total of the stored amounts unchanged. -/
theorem transfer_conserves_total_of_distinct (env : Env) (c : Context) (w : World) (s r : UUID)
    (a : Decimal) (hparam : c.wallet_id = some s) (hne : s ≠ r)
    (hnd : (w.db.wallets.map (fun x => x.ID)).Nodup)
    (hok : (WalletHandler.Transfer env c (some ⟨r, a⟩) w).1.status = 200) :
    totalAmount (WalletHandler.Transfer env c (some ⟨r, a⟩) w).2.db = totalAmount w.db := by
  obtain ⟨s1, userID, r1, a1, sw, rw, h1, _, h3, _, h5, _, h6, _, hnf, heq⟩ :=
    transfer_inv env c _ w hok
  have hid : s1 = s := by rw [h1] at hparam; exact Option.some.inj hparam
  subst hid
  have hb : r1 = r ∧ a1 = a := by
    injection h3 with h3; injection h3 with h3 h4; exact ⟨h3.symm, h4.symm⟩
  obtain ⟨hr1, ha1⟩ := hb
  subst hr1 ha1
  obtain ⟨hfs, hIDs, _⟩ := getByID_some _ _ _ _ h5
  obtain ⟨hfr, hIDr, _⟩ := getByID_some _ _ _ _ h6
  rw [heq, performTransfer_ok env sw rw a1 w hnf, hIDs, hIDr]
  simp only [totalAmount]
  rw [total_setAmount _ r1 _ rw (by rw [setAmount_ids]; exact hnd)
      (by rw [find_setAmount_other _ _ _ _ (Ne.symm hne)]; exact hfr),
    total_setAmount _ s1 _ sw hnd hfs]
  ring

/-- From a wallet to itself, a successful transfer of `a` leaves the wallet
with the amount read before plus `a`: the debit of the sender is overwritten
by the credit of the receiver, which is computed from the amount read before
the debit. -/
theorem self_transfer_credits (env : Env) (c : Context) (w : World) (s : UUID) (a : Decimal)
    (sender : Wallet) (hparam : c.wallet_id = some s)
    (hs : WalletRepository.GetByID w.db (env.readErr 0) s = .ok (some sender))
    (hok : (WalletHandler.Transfer env c (some ⟨s, a⟩) w).1.status = 200) :
    WalletRepository.GetByID (WalletHandler.Transfer env c (some ⟨s, a⟩) w).2.db none s =
      .ok (some { sender with Amount := sender.Amount + a }) := by
  obtain ⟨s1, userID, r1, a1, sw, rw, h1, _, h3, _, h5, _, h6, _, hnf, heq⟩ :=
    transfer_inv env c _ w hok
  have hid : s1 = s := by rw [h1] at hparam; exact Option.some.inj hparam
  subst hid
  have hb : r1 = s1 ∧ a1 = a := by
    injection h3 with h3; injection h3 with h3 h4; exact ⟨h3.symm, h4.symm⟩
  obtain ⟨hr1, ha1⟩ := hb
  subst hr1 ha1
  rw [hs] at h5
  have hw : sw = sender := by injection h5 with h5; injection h5 with h5; exact h5.symm
  subst hw
  obtain ⟨hfs, hIDs, _⟩ := getByID_some _ _ _ _ hs
  obtain ⟨hfr, hIDr, _⟩ := getByID_some _ _ _ _ h6
  have hrw : rw = sw := by rw [hfs] at hfr; exact (Option.some.inj hfr).symm
  subst hrw
  clear hIDr
  subst hIDs
  rw [heq, performTransfer_ok env rw rw a1 w hnf]
  simp only [WalletRepository.GetByID]
  rw [find_setAmount_same, find_setAmount_same, hfs]
  rfl

/-! ## The deduplication guard -/

theorem guard_of_created (genv : GuardEnv) (r : Redis) (userID token : String)
    (hne : token ≠ "")
    (h : (Redis.SetNX genv r (lockKey userID token) 5000).1 = (true, none)) :
    IdempotencyGuard genv r ⟨some userID, token⟩ =
      (.next (lockKey userID token), (Redis.SetNX genv r (lockKey userID token) 5000).2) := by
  unfold IdempotencyGuard
  simp only [if_neg hne]
  unfold lockKey at h ⊢
  rcases hs : Redis.SetNX genv r ("txn_lock:" ++ userID ++ ":" ++ token) 5000 with ⟨⟨b, e⟩, r1⟩
  rw [hs] at h
  simp only [Prod.mk.injEq] at h
  obtain ⟨hb, he⟩ := h
  subst hb he
  rfl

theorem guard_of_existing (genv : GuardEnv) (r : Redis) (userID token : String)
    (hne : token ≠ "")
    (h : (Redis.SetNX genv r (lockKey userID token) 5000).1 = (false, none)) :
    IdempotencyGuard genv r ⟨some userID, token⟩ =
      (.abort ⟨409, .error "Duplicate request detected"⟩,
        (Redis.SetNX genv r (lockKey userID token) 5000).2) := by
  unfold IdempotencyGuard
  simp only [if_neg hne]
  unfold lockKey at h ⊢
  rcases hs : Redis.SetNX genv r ("txn_lock:" ++ userID ++ ":" ++ token) 5000 with ⟨⟨b, e⟩, r1⟩
  rw [hs] at h
  simp only [Prod.mk.injEq] at h
  obtain ⟨hb, he⟩ := h
  subst hb he
  rfl

theorem guard_of_error (genv : GuardEnv) (r : Redis) (userID token : String)
    (hne : token ≠ "") (b : Bool) (e : String)
    (h : (Redis.SetNX genv r (lockKey userID token) 5000).1 = (b, some e)) :
    IdempotencyGuard genv r ⟨some userID, token⟩ =
      (.abort ⟨500, .error "Failed to check idempotency"⟩,
        (Redis.SetNX genv r (lockKey userID token) 5000).2) := by
  unfold IdempotencyGuard
  simp only [if_neg hne]
  unfold lockKey at h ⊢
  rcases hs : Redis.SetNX genv r ("txn_lock:" ++ userID ++ ":" ++ token) 5000 with ⟨⟨b1, e1⟩, r1⟩
  rw [hs] at h
  simp only [Prod.mk.injEq] at h
  obtain ⟨hb, he⟩ := h
  subst hb he
  cases b1 <;> rfl

theorem guard_next_iff (genv : GuardEnv) (r : Redis) (userID token : String)
    (hne : token ≠ "") (key : String) :
    (IdempotencyGuard genv r ⟨some userID, token⟩).1 = .next key ↔
      key = lockKey userID token ∧
        (Redis.SetNX genv r (lockKey userID token) 5000).1 = (true, none) := by
  rcases hs : (Redis.SetNX genv r (lockKey userID token) 5000).1 with ⟨b, e⟩
  cases e with
  | some e =>
    rw [guard_of_error genv r userID token hne b e hs]
    simp
  | none =>
    cases b with
    | false =>
      rw [guard_of_existing genv r userID token hne hs]
      simp
    | true =>
      rw [guard_of_created genv r userID token hne hs]
      simp [eq_comm]

theorem guarded_of_abort (genv : GuardEnv) (c : GuardContext)
    (handler : World → Response × World) (st : Server) (resp : Response) (r1 : Redis)
    (h : IdempotencyGuard genv st.redis c = (.abort resp, r1)) :
    guarded genv c handler st = (resp, ⟨st.world, r1⟩) := by
  unfold guarded
  rw [h]

theorem guarded_of_next (genv : GuardEnv) (c : GuardContext)
    (handler : World → Response × World) (st : Server) (key : String) (r1 : Redis)
    (h : IdempotencyGuard genv st.redis c = (.next key, r1)) :
    guarded genv c handler st = ((handler st.world).1, ⟨(handler st.world).2, r1⟩) := by
  unfold guarded
  rw [h]

theorem setnx_fresh (genv : GuardEnv) (r : Redis) (key : String) (ttl : Nat)
    (hup : genv.setnxErr = none) (hfresh : r.holds genv.now key = false) :
    Redis.SetNX genv r key ttl = ((true, none), ⟨(key, genv.now + ttl) :: r.keys⟩) := by
  unfold Redis.SetNX
  simp [hup, hfresh]

theorem setnx_held (genv : GuardEnv) (r : Redis) (key : String) (ttl : Nat)
    (hup : genv.setnxErr = none) (hheld : r.holds genv.now key = true) :
    Redis.SetNX genv r key ttl = ((false, none), r) := by
  unfold Redis.SetNX
  simp [hup, hheld]

theorem setnx_error (genv : GuardEnv) (r : Redis) (key : String) (ttl : Nat) (b : Bool)
    (e : String) (herr : genv.setnxErr = some (b, e)) :
    Redis.SetNX genv r key ttl = ((b, some e), r) := by
  unfold Redis.SetNX
  simp [herr]

theorem holds_after_create (keys : List (String × Nat)) (key : String) (t1 t2 ttl : Nat)
    (hwin : t2 < t1 + ttl) :
    Redis.holds ⟨(key, t1 + ttl) :: keys⟩ t2 key = true := by
  simp [Redis.holds, hwin]

theorem getByID_missing (db : DB) (readErr : Option String) (id : UUID) (wallet : Wallet)
    (hmiss : db.wallets.find? (fun x => x.ID == id) = none) :
    WalletRepository.GetByID db readErr id ≠ .ok (some wallet) := by
  intro h
  obtain ⟨hfind, _, _⟩ := getByID_some db readErr id wallet h
  rw [hmiss] at hfind
  exact Option.noConfusion hfind

theorem getByID_missing_ok (db : DB) (id : UUID)
    (hmiss : db.wallets.find? (fun x => x.ID == id) = none) :
    WalletRepository.GetByID db none id = .ok none := by
  simp [WalletRepository.GetByID, hmiss]

theorem deposit_missing_world (env : Env) (c : Context) (body : Option DepositRequest)
    (w : World) (walletID : UUID) (hparam : c.wallet_id = some walletID)
    (hmiss : w.db.wallets.find? (fun x => x.ID == walletID) = none) :
    (WalletHandler.Deposit env c body w).2 = w := by
  unfold WalletHandler.Deposit
  rw [hparam]
  simp only
  repeat' split
  all_goals first | rfl | skip
  all_goals
    exfalso
    apply getByID_missing _ _ _ _ hmiss
    assumption

theorem withdraw_missing_world (env : Env) (c : Context) (body : Option WithdrawRequest)
    (w : World) (walletID : UUID) (hparam : c.wallet_id = some walletID)
    (hmiss : w.db.wallets.find? (fun x => x.ID == walletID) = none) :
    (WalletHandler.Withdraw env c body w).2 = w := by
  unfold WalletHandler.Withdraw
  rw [hparam]
  simp only
  repeat' split
  all_goals first | rfl | skip
  all_goals
    exfalso
    apply getByID_missing _ _ _ _ hmiss
    assumption

theorem transfer_missing_sender_world (env : Env) (c : Context) (body : Option TransferRequest)
    (w : World) (walletID : UUID) (hparam : c.wallet_id = some walletID)
    (hmiss : w.db.wallets.find? (fun x => x.ID == walletID) = none) :
    (WalletHandler.Transfer env c body w).2 = w := by
  unfold WalletHandler.Transfer
  rw [hparam]
  simp only
  repeat' split
  all_goals first | rfl | skip
  all_goals
    exfalso
    apply getByID_missing _ _ _ _ hmiss
    assumption

theorem transfer_missing_receiver_world (env : Env) (c : Context) (r : UUID) (a : Decimal)
    (w : World) (hmiss : w.db.wallets.find? (fun x => x.ID == r) = none) :
    (WalletHandler.Transfer env c (some ⟨r, a⟩) w).2 = w := by
  unfold WalletHandler.Transfer
  by_cases hv : r ≠ 0
  · have hb : TransferRequest.ShouldBindJSON (some ⟨r, a⟩) = some ⟨r, a⟩ := by
      simp only [TransferRequest.ShouldBindJSON, if_pos hv]
    rw [hb]
    simp only
    repeat' split
    all_goals first | rfl | skip
    all_goals
      exfalso
      apply getByID_missing _ _ _ _ hmiss
      assumption
  · have hb : TransferRequest.ShouldBindJSON (some ⟨r, a⟩) = none := by
      simp only [TransferRequest.ShouldBindJSON, if_neg hv]
    rw [hb]
    split <;> rfl

/-! ## The frame of the money movements -/

theorem frame_refl (named : List UUID) (ws : List Wallet) : Frame named ws ws := by
  induction ws with
  | nil => exact List.Forall₂.nil
  | cons x xs ih => exact List.Forall₂.cons ⟨rfl, rfl, rfl, rfl, rfl, fun _ => rfl⟩ ih

theorem frame_setAmount (named : List UUID) (ws : List Wallet) (id : UUID) (a : Decimal)
    (hid : id ∈ named) : Frame named ws (setAmount ws id a) := by
  induction ws with
  | nil => exact List.Forall₂.nil
  | cons x xs ih =>
    rw [setAmount_cons]
    refine List.Forall₂.cons ?_ ih
    by_cases h : x.ID = id
    · rw [if_pos h]
      exact ⟨rfl, rfl, rfl, rfl, rfl, fun hn => absurd (h ▸ hid) hn⟩
    · rw [if_neg h]
      exact ⟨rfl, rfl, rfl, rfl, rfl, fun _ => rfl⟩

theorem frame_trans (named : List UUID) (ws1 ws2 ws3 : List Wallet)
    (h12 : Frame named ws1 ws2) (h23 : Frame named ws2 ws3) : Frame named ws1 ws3 := by
  unfold Frame at *
  induction h12 generalizing ws3 with
  | nil => exact h23
  | cons hxy _ ih =>
    cases h23 with
    | cons hyz h23 =>
      refine List.Forall₂.cons ?_ (ih _ h23)
      obtain ⟨a1, a2, a3, a4, a5, a6⟩ := hxy
      obtain ⟨b1, b2, b3, b4, b5, b6⟩ := hyz
      exact ⟨b1.trans a1, b2.trans a2, b3.trans a3, b4.trans a4, b5.trans a5,
        fun hn => (b6 (by rw [a1]; exact hn)).trans (a6 hn)⟩

theorem createAll_absent (us : List User) (m : MockUserRepository) (email : String)
    (hm : m.users email = none) (hnot : email ∉ us.map (fun u => u.Email)) :
    (m.createAll us).users email = none := by
  induction us generalizing m with
  | nil => exact hm
  | cons u us ih =>
    rw [List.map_cons, List.mem_cons, not_or] at hnot
    apply ih _ _ hnot.2
    simp only [MockUserRepository.Create]
    rw [if_neg hnot.1]
    exact hm

/-! ## Withdrawals in two parts -/

theorem withdraw_eq_read_write (env : Env) (c : Context) (body : Option WithdrawRequest)
    (w : World) :
    WalletHandler.Withdraw env c body w =
      match WalletHandler.withdrawRead env c body w with
      | .error resp => (resp, w)
      | .ok (wallet, amount) => WalletHandler.withdrawWrite env wallet amount w := by
  unfold WalletHandler.Withdraw WalletHandler.withdrawRead WalletHandler.withdrawWrite
  repeat' split
  all_goals first | rfl | simp_all

theorem withdrawRead_ok_eval (env : Env) (w : World) (walletID userID : UUID) (a : Decimal)
    (wallet : Wallet) (hread : env.readErr 0 = none)
    (hfind : w.db.wallets.find? (fun x => x.ID == walletID) = some wallet)
    (hown : wallet.UserID = userID) (hle : a ≤ wallet.Amount) :
    WalletHandler.withdrawRead env ⟨some walletID, some (some userID)⟩ (some ⟨a⟩) w =
      .ok (wallet, a) := by
  simp [WalletHandler.withdrawRead, WithdrawRequest.ShouldBindJSON, WalletRepository.GetByID,
    hread, hfind, hown, not_lt.2 hle]

theorem withdrawRead_insufficient_eval (env : Env) (w : World) (walletID userID : UUID)
    (a : Decimal) (wallet : Wallet) (hread : env.readErr 0 = none)
    (hfind : w.db.wallets.find? (fun x => x.ID == walletID) = some wallet)
    (hown : wallet.UserID = userID) (hlt : wallet.Amount < a) :
    WalletHandler.withdrawRead env ⟨some walletID, some (some userID)⟩ (some ⟨a⟩) w =
      .error ⟨400, .error "Insufficient balance"⟩ := by
  simp [WalletHandler.withdrawRead, WithdrawRequest.ShouldBindJSON, WalletRepository.GetByID,
    hread, hfind, hown, hlt]

theorem withdrawWrite_ok_eval (env : Env) (wallet : Wallet) (a : Decimal) (w : World)
    (hnf : env.noFault3) :
    WalletHandler.withdrawWrite env wallet a w =
      (⟨200, .message "Withdrawal successful" a⟩,
        ⟨{ wallets := setAmount w.db.wallets wallet.ID (wallet.Amount - a),
           transactions := w.db.transactions ++
             [⟨env.newUUID 0, TransactionTypeWithdrawal, TransactionStatusDone, env.now⟩],
           transaction_entries := w.db.transaction_entries ++
             [⟨env.newUUID 1, env.newUUID 0, wallet.ID, DirectionOut, a, none, env.now⟩] },
         w.calls ++ [Call.BeginTx, Call.fn, Call.Commit]⟩) := by
  unfold WalletHandler.withdrawWrite
  rw [performWithdrawal_ok env wallet a w hnf]

theorem withdrawRead_ok_bounds (env : Env) (c : Context) (body : Option WithdrawRequest)
    (w : World) (wallet : Wallet) (a : Decimal)
    (h : WalletHandler.withdrawRead env c body w = .ok (wallet, a)) :
    a ≤ wallet.Amount := by
  obtain ⟨wid, uid⟩ := c
  unfold WalletHandler.withdrawRead at h
  cases wid with
  | none => simp at h
  | some walletID =>
    cases body with
    | none => simp [WithdrawRequest.ShouldBindJSON] at h
    | some req =>
      obtain ⟨b⟩ := req
      cases uid with
      | none => simp [WithdrawRequest.ShouldBindJSON] at h
      | some uid1 =>
        cases uid1 with
        | none => simp [WithdrawRequest.ShouldBindJSON] at h
        | some userID =>
          cases hg : WalletRepository.GetByID w.db (env.readErr 0) walletID with
          | error e => simp [WithdrawRequest.ShouldBindJSON, hg] at h
          | ok ow =>
            cases ow with
            | none => simp [WithdrawRequest.ShouldBindJSON, hg] at h
            | some wallet1 =>
              by_cases ho : wallet1.UserID = userID
              · by_cases hlt : wallet1.Amount < b
                · simp [WithdrawRequest.ShouldBindJSON, hg, ho, hlt] at h
                · simp [WithdrawRequest.ShouldBindJSON, hg, ho, hlt] at h
                  obtain ⟨h1, h2⟩ := h
                  subst h1 h2
                  exact not_lt.1 hlt
              · simp [WithdrawRequest.ShouldBindJSON, hg, ho] at h

theorem withdrawWrite_nonneg (env : Env) (wallet : Wallet) (a : Decimal) (w : World)
    (hle : a ≤ wallet.Amount) (h : NonNegative w.db) :
    NonNegative (WalletHandler.withdrawWrite env wallet a w).2.db := by
  unfold WalletHandler.withdrawWrite
  by_cases hnf : env.noFault3
  · rw [performWithdrawal_ok env wallet a w hnf]
    exact setAmount_nonneg _ _ _ h (sub_nonneg.2 hle)
  · have hne : (WalletHandler.performWithdrawal env wallet a w).1 ≠ none :=
      fun hnil => hnf ((performWithdrawal_nil_iff env wallet a w).1 hnil)
    have hdb := performWithdrawal_err_db env wallet a w hne
    rcases hp : WalletHandler.performWithdrawal env wallet a w with ⟨e, w1⟩
    rw [hp] at hne hdb
    cases e with
    | none => exact absurd rfl hne
    | some e =>
      simp only at hdb ⊢
      unfold NonNegative
      rw [hdb]
      exact h

theorem withdrawWrites_nonneg (qs : List (Env × Except Response (Wallet × Decimal)))
    (w : World)
    (hqs : ∀ q ∈ qs, ∀ wallet a, q.2 = .ok (wallet, a) → a ≤ wallet.Amount)
    (h : NonNegative w.db) : NonNegative (withdrawWrites qs w).2.db := by
  induction qs generalizing w with
  | nil => exact h
  | cons q qs ih =>
    obtain ⟨env, res⟩ := q
    have hrest : ∀ q ∈ qs, ∀ wallet a, q.2 = .ok (wallet, a) → a ≤ wallet.Amount :=
      fun q hq => hqs q (List.mem_cons_of_mem _ hq)
    cases res with
    | error resp => exact ih w hrest h
    | ok p =>
      obtain ⟨wallet, a⟩ := p
      exact ih _ hrest
        (withdrawWrite_nonneg env wallet a w (hqs _ (List.mem_cons_self _ _) wallet a rfl) h)

theorem withdrawRace_nonneg (c : Context) (a : Decimal) (envs : List Env) (w : World)
    (h : NonNegative w.db) : NonNegative (withdrawRace c a envs w).2.db := by
  unfold withdrawRace
  apply withdrawWrites_nonneg _ _ _ h
  intro q hq wallet b hb
  rw [List.mem_map] at hq
  obtain ⟨env, _, rfl⟩ := hq
  have hle := withdrawRead_ok_bounds env c (some ⟨a⟩) w wallet b hb
  exact hle

theorem withdrawInTurn_insufficient (envs : List Env) (w : World) (walletID userID : UUID)
    (a : Decimal) (stored : Wallet) (hread : ∀ env ∈ envs, env.readErr 0 = none)
    (hfind : w.db.wallets.find? (fun x => x.ID == walletID) = some stored)
    (hown : stored.UserID = userID) (hlt : stored.Amount < a) :
    withdrawInTurn ⟨some walletID, some (some userID)⟩ a envs w =
      (List.replicate envs.length ⟨400, .error "Insufficient balance"⟩, w) := by
  induction envs with
  | nil => rfl
  | cons env envs ih =>
    have h1 : WalletHandler.Withdraw env ⟨some walletID, some (some userID)⟩ (some ⟨a⟩) w =
        (⟨400, .error "Insufficient balance"⟩, w) := by
      rw [withdraw_eq_read_write,
        withdrawRead_insufficient_eval env w walletID userID a stored
          (hread env (List.mem_cons_self _ _)) hfind hown hlt]
    simp only [withdrawInTurn, h1, ih (fun e he => hread e (List.mem_cons_of_mem _ he)),
      List.length_cons, List.replicate_succ]

theorem withdrawWrites_all_ok (envs : List Env) (wallet : Wallet) (a x : Decimal) (w : World)
    (hnf : ∀ env ∈ envs, env.noFault3)
    (hfind : w.db.wallets.find? (fun y => y.ID == wallet.ID) = some { wallet with Amount := x }) :
    (withdrawWrites (envs.map (fun env => (env, Except.ok (wallet, a)))) w).1 =
        List.replicate envs.length ⟨200, .message "Withdrawal successful" a⟩ ∧
      (withdrawWrites (envs.map (fun env => (env, Except.ok (wallet, a)))) w).2.db.wallets.find?
          (fun y => y.ID == wallet.ID) =
        some { wallet with Amount := if envs.length = 0 then x else wallet.Amount - a } := by
  induction envs generalizing w x with
  | nil => exact ⟨rfl, by simpa using hfind⟩
  | cons env envs ih =>
    have hw := withdrawWrite_ok_eval env wallet a w (hnf env (List.mem_cons_self _ _))
    have hfind1 : (WalletHandler.withdrawWrite env wallet a w).2.db.wallets.find?
        (fun y => y.ID == wallet.ID) = some { wallet with Amount := wallet.Amount - a } := by
      rw [hw]
      simp only
      rw [find_setAmount_same, hfind]
      rfl
    obtain ⟨ih1, ih2⟩ := ih (wallet.Amount - a) (WalletHandler.withdrawWrite env wallet a w).2
      (fun e he => hnf e (List.mem_cons_of_mem _ he)) hfind1
    constructor
    · simp only [List.map_cons, withdrawWrites, ih1, List.length_cons, List.replicate_succ]
      rw [hw]
    · simp only [List.map_cons, withdrawWrites, ih2, List.length_cons]
      by_cases hl : envs.length = 0 <;> simp [hl]

theorem withdrawInTurn_nonneg (c : Context) (a : Decimal) (envs : List Env) (w : World)
    (h : NonNegative w.db) : NonNegative (withdrawInTurn c a envs w).2.db := by
  induction envs generalizing w with
  | nil => exact h
  | cons env envs ih => exact ih _ (withdraw_nonneg env c _ w h)

/-! ## The transaction history -/

theorem historyQuery_args_of_limit_offset (walletID : UUID) (req : TransactionHistoryRequest)
    (limit offset : Int) (hl : req.Limit = some limit) (ho : req.Offset = some offset) :
    (TransactionRepository.historyQuery walletID req).args =
      Arg.uuid walletID :: filterArgs req ++ [Arg.int limit, Arg.int offset] := by
  obtain ⟨sd, ed, cp, l, o⟩ := req
  simp only at hl ho
  subst hl ho
  cases sd <;> cases ed <;> cases cp <;> rfl

theorem historyQuery_params (walletID : UUID) (req : TransactionHistoryRequest) :
    (TransactionRepository.historyQuery walletID req).countQuery.data.count '$' =
      (filterArgs req).length + 1 := by
  obtain ⟨sd, ed, cp, l, o⟩ := req
  cases sd <;> cases ed <;> cases cp <;> cases l <;> cases o <;>
    simp only [TransactionRepository.historyQuery, filterArgs, Option.map, Option.toList,
      List.append_nil, List.nil_append, List.length_cons, List.length_nil,
      List.length_append, List.cons_append] <;>
    decide

theorem sliceTo_drop_two (xs : List Arg) (a b : Arg) :
    sliceTo (xs ++ [a, b]) (((xs ++ [a, b]).length : Int) - 2) = some xs := by
  have hlen : (((xs ++ [a, b]).length : Int) - 2) = (xs.length : Int) := by
    simp only [List.length_append, List.length_cons, List.length_nil]
    push_cast
    ring
  rw [hlen]
  unfold sliceTo
  rw [if_pos ⟨Int.natCast_nonneg _, by simp⟩]
  simp

theorem historyTotal_of_limit_offset (db : DB) (walletID : UUID)
    (req : TransactionHistoryRequest) (limit offset : Int)
    (hl : req.Limit = some limit) (ho : req.Offset = some offset) :
    sliceTo (TransactionRepository.historyQuery walletID req).args
        (((TransactionRepository.historyQuery walletID req).args.length : Int) - 2) =
      some (Arg.uuid walletID :: filterArgs req) ∧
    TransactionRepository.historyTotal db none walletID req =
      .total (countMatching db walletID req).length := by
  have hargs := historyQuery_args_of_limit_offset walletID req limit offset hl ho
  have hs : sliceTo (TransactionRepository.historyQuery walletID req).args
      (((TransactionRepository.historyQuery walletID req).args.length : Int) - 2) =
      some (Arg.uuid walletID :: filterArgs req) := by
    rw [hargs]
    exact sliceTo_drop_two (Arg.uuid walletID :: filterArgs req) _ _
  refine ⟨hs, ?_⟩
  unfold TransactionRepository.historyTotal
  simp only [hs, historyQuery_params, List.length_cons, if_true]

theorem history_slice_correct_iff (walletID : UUID) (req : TransactionHistoryRequest) :
    sliceTo (TransactionRepository.historyQuery walletID req).args
        (((TransactionRepository.historyQuery walletID req).args.length : Int) - 2) =
      some (Arg.uuid walletID :: filterArgs req) ↔
    (req.Limit ≠ none ∧ req.Offset ≠ none) := by
  obtain ⟨sd, ed, cp, l, o⟩ := req
  cases l with
  | none =>
    cases sd <;> cases ed <;> cases cp <;> cases o <;>
      simp [TransactionRepository.historyQuery, filterArgs, sliceTo]
  | some limit =>
    cases o with
    | none =>
      cases sd <;> cases ed <;> cases cp <;>
        simp [TransactionRepository.historyQuery, filterArgs, sliceTo]
    | some offset =>
      simp only [ne_eq, not_false_eq_true, and_self, iff_true, reduceCtorEq]
      exact (historyTotal_of_limit_offset ⟨[], [], []⟩ walletID _ limit offset rfl rfl).1

/-! ## The key of the guard -/

theorem split_at_mark (c : Char) (l1 l2 r1 r2 : List Char) (h1 : c ∉ l1) (h2 : c ∉ l2)
    (h : l1 ++ c :: r1 = l2 ++ c :: r2) : l1 = l2 ∧ r1 = r2 := by
  induction l1 generalizing l2 with
  | nil =>
    cases l2 with
    | nil =>
      simp only [List.nil_append, List.cons.injEq, true_and] at h
      exact ⟨rfl, h⟩
    | cons y l2 =>
      simp only [List.nil_append, List.cons_append, List.cons.injEq] at h
      exact absurd (h.1 ▸ List.mem_cons_self _ _) h2
  | cons x l1 ih =>
    cases l2 with
    | nil =>
      simp only [List.nil_append, List.cons_append, List.cons.injEq] at h
      exact absurd (h.1 ▸ List.mem_cons_self _ _) h1
    | cons y l2 =>
      simp only [List.cons_append, List.cons.injEq] at h
      obtain ⟨hl, hr⟩ := ih l2 (fun hm => h1 (List.mem_cons_of_mem _ hm))
        (fun hm => h2 (List.mem_cons_of_mem _ hm)) h.2
      exact ⟨by rw [h.1, hl], hr⟩

theorem lockKey_data (u t : String) :
    (lockKey u t).data = "txn_lock:".data ++ (u.data ++ ':' :: t.data) := by
  simp only [lockKey, String.data_append, List.append_assoc]
  rfl

theorem lockKey_injective (u1 t1 u2 t2 : String) (h1 : ':' ∉ u1.data) (h2 : ':' ∉ u2.data)
    (h : lockKey u1 t1 = lockKey u2 t2) : u1 = u2 ∧ t1 = t2 := by
  have hd := congrArg String.data h
  rw [lockKey_data, lockKey_data] at hd
  obtain ⟨hu, ht⟩ := split_at_mark ':' _ _ _ _ h1 h2 (List.append_cancel_left hd)
  exact ⟨String.ext hu, String.ext ht⟩

theorem holds_cons_other (keys : List (String × Nat)) (key key1 : String) (now t : Nat)
    (hne : key1 ≠ key) :
    Redis.holds ⟨(key1, t) :: keys⟩ now key = Redis.holds ⟨keys⟩ now key := by
  simp [Redis.holds, hne]

theorem setnx_holds_other (genv : GuardEnv) (r : Redis) (key key1 : String) (now ttl : Nat)
    (hne : key1 ≠ key) :
    (Redis.SetNX genv r key1 ttl).2.holds now key = r.holds now key := by
  unfold Redis.SetNX
  split
  · rfl
  · split
    · rfl
    · exact holds_cons_other r.keys key key1 now _ hne

theorem guard_holds_other (genv : GuardEnv) (r : Redis) (c : GuardContext) (key : String)
    (now : Nat) (hne : ∀ u, c.user_id = some u → lockKey u c.idempotencyKey ≠ key) :
    (IdempotencyGuard genv r c).2.holds now key = r.holds now key := by
  obtain ⟨uid, token⟩ := c
  cases uid with
  | none => rfl
  | some u =>
    by_cases ht : token = ""
    · subst ht
      simp [IdempotencyGuard]
    · have hk := setnx_holds_other genv r key (lockKey u token) now 5000 (hne u rfl)
      rcases hs : (Redis.SetNX genv r (lockKey u token) 5000).1 with ⟨b, e⟩
      cases e with
      | some e => rw [guard_of_error genv r u token ht b e hs]; exact hk
      | none =>
        cases b with
        | false => rw [guard_of_existing genv r u token ht hs]; exact hk
        | true => rw [guard_of_created genv r u token ht hs]; exact hk

theorem guard_outcome_congr (genv : GuardEnv) (r1 r2 : Redis) (u t : String)
    (h : r1.holds genv.now (lockKey u t) = r2.holds genv.now (lockKey u t)) :
    (IdempotencyGuard genv r1 ⟨some u, t⟩).1 = (IdempotencyGuard genv r2 ⟨some u, t⟩).1 := by
  by_cases ht : t = ""
  · subst ht
    simp [IdempotencyGuard]
  · have hs : (Redis.SetNX genv r1 (lockKey u t) 5000).1 =
        (Redis.SetNX genv r2 (lockKey u t) 5000).1 := by
      unfold Redis.SetNX
      rw [h]
      split
      · rfl
      · split <;> rfl
    rcases hs1 : (Redis.SetNX genv r1 (lockKey u t) 5000).1 with ⟨b, e⟩
    have hs2 := hs ▸ hs1
    cases e with
    | some e =>
      rw [guard_of_error genv r1 u t ht b e hs1, guard_of_error genv r2 u t ht b e hs2]
    | none =>
      cases b with
      | false =>
        rw [guard_of_existing genv r1 u t ht hs1, guard_of_existing genv r2 u t ht hs2]
      | true =>
        rw [guard_of_created genv r1 u t ht hs1, guard_of_created genv r2 u t ht hs2]

theorem lockKey_collides_with_colon : lockKey "a:b" "c" = lockKey "a" "b:c" := by decide

/-! ## The properties -/

/-- C1: when `Deposit` on wallet `walletID` with amount `a` answers 200, the
amount stored for the wallet is the amount read before plus `a`, the
transactions are the old ones followed by one new DEPOSIT/DONE row, and the
entries are the old ones followed by one new row with that transaction id,
the wallet, direction IN, amount `a` and no counterparty. -/
theorem deposit_success_effect (env : Env) (c : Context) (w : World) (walletID : UUID)
    (a : Decimal) (wallet : Wallet)
    (hparam : c.wallet_id = some walletID)
    (hread : WalletRepository.GetByID w.db (env.readErr 0) walletID = .ok (some wallet))
    (hok : (WalletHandler.Deposit env c (some ⟨a⟩) w).1.status = 200) :
    (∃ wallet1,
      WalletRepository.GetByID (WalletHandler.Deposit env c (some ⟨a⟩) w).2.db none walletID =
        .ok (some wallet1) ∧ wallet1.Amount = wallet.Amount + a) ∧
    (WalletHandler.Deposit env c (some ⟨a⟩) w).2.db.transactions =
      w.db.transactions ++
        [⟨env.newUUID 0, TransactionTypeDeposit, TransactionStatusDone, env.now⟩] ∧
    (WalletHandler.Deposit env c (some ⟨a⟩) w).2.db.transaction_entries =
      w.db.transaction_entries ++
        [⟨env.newUUID 1, env.newUUID 0, walletID, DirectionIn, a, none, env.now⟩] := by
  obtain ⟨walletID1, userID, a1, wallet1, h1, _, h3, h5, _, hnf, heq⟩ :=
    deposit_inv env c _ w hok
  have hid : walletID1 = walletID := by rw [h1] at hparam; exact Option.some.inj hparam
  subst hid
  have ha : a1 = a := by injection h3 with h3; injection h3 with h3; exact h3.symm
  subst ha
  rw [hread] at h5
  have hw : wallet1 = wallet := by injection h5 with h5; injection h5 with h5; exact h5.symm
  subst hw
  have hfind : w.db.wallets.find? (fun x => x.ID == walletID1) = some wallet1 := by
    unfold WalletRepository.GetByID at hread
    cases hr : env.readErr 0 with
    | some e => simp [hr] at hread
    | none => simpa [hr] using hread
  have hID : wallet1.ID = walletID1 := by
    have := List.find?_some hfind
    simpa using this
  subst hID
  rw [heq, performDeposit_ok env wallet1 a1 w hnf]
  refine ⟨⟨{ wallet1 with Amount := wallet1.Amount + a1 }, ?_, rfl⟩, rfl, rfl⟩
  simp only [WalletRepository.GetByID]
  rw [find_setAmount_same, hfind]
  rfl

/-- The deposit property at a concrete input: user 10 deposits 50 into wallet 1, which holds 100. -/
theorem deposit_success_effect_witness :
    (∃ wallet1,
      WalletRepository.GetByID
        (WalletHandler.Deposit sampleEnv ⟨some 1, some (some 10)⟩ (some ⟨50⟩) sampleWorld).2.db
        none 1 = .ok (some wallet1) ∧ wallet1.Amount = 100 + 50) ∧
    (WalletHandler.Deposit sampleEnv ⟨some 1, some (some 10)⟩ (some ⟨50⟩)
        sampleWorld).2.db.transactions =
      [] ++ [⟨100, TransactionTypeDeposit, TransactionStatusDone, 7⟩] ∧
    (WalletHandler.Deposit sampleEnv ⟨some 1, some (some 10)⟩ (some ⟨50⟩)
        sampleWorld).2.db.transaction_entries =
      [] ++ [⟨101, 100, 1, DirectionIn, 50, none, 7⟩] :=
  deposit_success_effect sampleEnv ⟨some 1, some (some 10)⟩ sampleWorld 1 50
    ⟨1, 10, CoinTypeBTC, 100, 0, 0⟩ rfl (by rfl)
    (by
      simp [WalletHandler.Deposit, DepositRequest.ShouldBindJSON, WalletRepository.GetByID,
        WalletHandler.performDeposit, TransactionManager.ExecuteTransaction,
        WalletHandler.depositFn, TransactionRepository.CreateTransaction,
        WalletRepository.UpdateAmount, TransactionRepository.CreateTransactionEntry,
        Tx.Commit, sampleEnv, sampleWorld])

/-- C2: when `Withdraw` on wallet `walletID` with amount `a` answers 200, the
amount `a` is at most the amount read, the amount stored for the wallet
afterwards is the amount read before minus `a`, the transactions are the
old ones followed by one new WITHDRAWAL/DONE row, and
the entries are the old ones followed by one new row with that transaction
id, the wallet, direction OUT, amount `a` and no counterparty. -/
theorem withdraw_success_effect (env : Env) (c : Context) (w : World) (walletID : UUID)
    (a : Decimal) (wallet : Wallet)
    (hparam : c.wallet_id = some walletID)
    (hread : WalletRepository.GetByID w.db (env.readErr 0) walletID = .ok (some wallet))
    (hok : (WalletHandler.Withdraw env c (some ⟨a⟩) w).1.status = 200) :
    a ≤ wallet.Amount ∧
    (∃ wallet1,
      WalletRepository.GetByID (WalletHandler.Withdraw env c (some ⟨a⟩) w).2.db none walletID =
        .ok (some wallet1) ∧ wallet1.Amount = wallet.Amount - a) ∧
    (WalletHandler.Withdraw env c (some ⟨a⟩) w).2.db.transactions =
      w.db.transactions ++
        [⟨env.newUUID 0, TransactionTypeWithdrawal, TransactionStatusDone, env.now⟩] ∧
    (WalletHandler.Withdraw env c (some ⟨a⟩) w).2.db.transaction_entries =
      w.db.transaction_entries ++
        [⟨env.newUUID 1, env.newUUID 0, walletID, DirectionOut, a, none, env.now⟩] := by
  obtain ⟨walletID1, userID, a1, wallet1, h1, _, h3, h5, _, hle, hnf, heq⟩ :=
    withdraw_inv env c _ w hok
  have hid : walletID1 = walletID := by rw [h1] at hparam; exact Option.some.inj hparam
  subst hid
  have ha : a1 = a := by injection h3 with h3; injection h3 with h3; exact h3.symm
  subst ha
  rw [hread] at h5
  have hw : wallet1 = wallet := by injection h5 with h5; injection h5 with h5; exact h5.symm
  subst hw
  obtain ⟨hfind, hID, _⟩ := getByID_some _ _ _ _ hread
  subst hID
  rw [heq, performWithdrawal_ok env wallet1 a1 w hnf]
  exact ⟨hle, ⟨_, getByID_setAmount_same w.db _ wallet1 _ _ _ hfind, rfl⟩, rfl, rfl⟩

/-- The withdrawal property at a concrete input: user 10 withdraws 30 from wallet 1, which holds 100. -/
theorem withdraw_success_effect_witness :
    (30 : Decimal) ≤ 100 ∧
    (∃ wallet1,
      WalletRepository.GetByID
        (WalletHandler.Withdraw sampleEnv ⟨some 1, some (some 10)⟩ (some ⟨30⟩) sampleWorld).2.db
        none 1 = .ok (some wallet1) ∧ wallet1.Amount = 100 - 30) ∧
    (WalletHandler.Withdraw sampleEnv ⟨some 1, some (some 10)⟩ (some ⟨30⟩)
        sampleWorld).2.db.transactions =
      [] ++ [⟨100, TransactionTypeWithdrawal, TransactionStatusDone, 7⟩] ∧
    (WalletHandler.Withdraw sampleEnv ⟨some 1, some (some 10)⟩ (some ⟨30⟩)
        sampleWorld).2.db.transaction_entries =
      [] ++ [⟨101, 100, 1, DirectionOut, 30, none, 7⟩] :=
  withdraw_success_effect sampleEnv ⟨some 1, some (some 10)⟩ sampleWorld 1 30
    ⟨1, 10, CoinTypeBTC, 100, 0, 0⟩ rfl (by rfl)
    (by
      simp [WalletHandler.Withdraw, WithdrawRequest.ShouldBindJSON, WalletRepository.GetByID,
        WalletHandler.performWithdrawal, TransactionManager.ExecuteTransaction,
        WalletHandler.withdrawalFn, TransactionRepository.CreateTransaction,
        WalletRepository.UpdateAmount, TransactionRepository.CreateTransactionEntry,
        Tx.Commit, sampleEnv, sampleWorld]
      norm_num)

/-- C3: a withdrawal of more than the stored amount of the caller's wallet
leaves the world as it was (no wallet, transaction or entry changes and the
transaction manager is not called) and is answered 400, with the message
"Insufficient balance" whenever the amount is positive; a
transfer of more than the sender's stored amount leaves the world as it
was too, and is answered 400 "Insufficient balance" whenever the body is
valid and the receiver wallet is read. -/
theorem insufficient_balance_rejected (env : Env) (c : Context) (w : World)
    (walletID userID receiverID : UUID) (a : Decimal) (wallet : Wallet)
    (hparam : c.wallet_id = some walletID) (huser : c.user_id = some (some userID))
    (hread : WalletRepository.GetByID w.db (env.readErr 0) walletID = .ok (some wallet))
    (hown : wallet.UserID = userID) (hlt : wallet.Amount < a) :
    ((WalletHandler.Withdraw env c (some ⟨a⟩) w).2 = w ∧
      (WalletHandler.Withdraw env c (some ⟨a⟩) w).1.status = 400 ∧
      (0 < a → (WalletHandler.Withdraw env c (some ⟨a⟩) w).1 =
        ⟨400, .error "Insufficient balance"⟩)) ∧
    ((WalletHandler.Transfer env c (some ⟨receiverID, a⟩) w).2 = w ∧
      (∀ receiver, 0 < a → receiverID ≠ 0 →
        WalletRepository.GetByID w.db (env.readErr 1) receiverID = .ok (some receiver) →
        (WalletHandler.Transfer env c (some ⟨receiverID, a⟩) w).1 =
          ⟨400, .error "Insufficient balance"⟩)) := by
  obtain ⟨wid, uid⟩ := c
  simp only at hparam huser
  subst hparam huser
  refine ⟨?_, ?_, ?_⟩
  · simp [WalletHandler.Withdraw, WithdrawRequest.ShouldBindJSON, hread, hown, hlt]
  · by_cases hv : receiverID ≠ 0
    · cases hg1 : WalletRepository.GetByID w.db (env.readErr 1) receiverID with
      | error e =>
        simp [WalletHandler.Transfer, TransferRequest.ShouldBindJSON, hv, hread, hown, hg1]
      | ok ow =>
        cases ow with
        | none =>
          simp [WalletHandler.Transfer, TransferRequest.ShouldBindJSON, hv, hread, hown, hg1]
        | some rw =>
          simp [WalletHandler.Transfer, TransferRequest.ShouldBindJSON, hv, hread, hown, hg1,
            hlt]
    · simp [WalletHandler.Transfer, TransferRequest.ShouldBindJSON, hv]
  · intro receiver ha hr hg1
    simp [WalletHandler.Transfer, TransferRequest.ShouldBindJSON, hr, hread, hown, hg1, hlt]

/-- The rejection property at a concrete input: user 10 asks for 200 out of wallet 1, which holds 100. -/
theorem insufficient_balance_rejected_witness :
    ((WalletHandler.Withdraw sampleEnv ⟨some 1, some (some 10)⟩ (some ⟨200⟩) sampleWorld).2 =
        sampleWorld ∧
      (WalletHandler.Withdraw sampleEnv ⟨some 1, some (some 10)⟩ (some ⟨200⟩)
        sampleWorld).1.status = 400 ∧
      (0 < (200 : Decimal) →
        (WalletHandler.Withdraw sampleEnv ⟨some 1, some (some 10)⟩ (some ⟨200⟩) sampleWorld).1 =
          ⟨400, .error "Insufficient balance"⟩)) ∧
    ((WalletHandler.Transfer sampleEnv ⟨some 1, some (some 10)⟩ (some ⟨2, 200⟩) sampleWorld).2 =
        sampleWorld ∧
      (∀ receiver, 0 < (200 : Decimal) → 2 ≠ 0 →
        WalletRepository.GetByID sampleWorld.db (sampleEnv.readErr 1) 2 = .ok (some receiver) →
        (WalletHandler.Transfer sampleEnv ⟨some 1, some (some 10)⟩ (some ⟨2, 200⟩)
          sampleWorld).1 = ⟨400, .error "Insufficient balance"⟩)) :=
  insufficient_balance_rejected sampleEnv ⟨some 1, some (some 10)⟩ sampleWorld 1 10 2 200
    ⟨1, 10, CoinTypeBTC, 100, 0, 0⟩ rfl rfl (by rfl) rfl (by norm_num)

/-- C4: when `Transfer` from wallet `s` to a different wallet `r` with amount
`a` answers 200, the amount stored for `s` is the amount read before minus
`a` and the amount stored for `r` is the amount read before plus `a`. -/
theorem transfer_success_amounts (env : Env) (c : Context) (w : World) (s r : UUID)
    (a : Decimal) (sender receiver : Wallet)
    (hparam : c.wallet_id = some s)
    (hs : WalletRepository.GetByID w.db (env.readErr 0) s = .ok (some sender))
    (hr : WalletRepository.GetByID w.db (env.readErr 1) r = .ok (some receiver))
    (hne : s ≠ r)
    (hok : (WalletHandler.Transfer env c (some ⟨r, a⟩) w).1.status = 200) :
    (∃ sender1,
      WalletRepository.GetByID (WalletHandler.Transfer env c (some ⟨r, a⟩) w).2.db none s =
        .ok (some sender1) ∧ sender1.Amount = sender.Amount - a) ∧
    (∃ receiver1,
      WalletRepository.GetByID (WalletHandler.Transfer env c (some ⟨r, a⟩) w).2.db none r =
        .ok (some receiver1) ∧ receiver1.Amount = receiver.Amount + a) := by
  obtain ⟨s1, userID, r1, a1, sw, rw, h1, _, h3, _, h5, _, h6, _, hnf, heq⟩ :=
    transfer_inv env c _ w hok
  have hid : s1 = s := by rw [h1] at hparam; exact Option.some.inj hparam
  subst hid
  have hb : r1 = r ∧ a1 = a := by
    injection h3 with h3; injection h3 with h3 h4; exact ⟨h3.symm, h4.symm⟩
  obtain ⟨hr1, ha1⟩ := hb
  subst hr1 ha1
  rw [hs] at h5
  have hw : sw = sender := by injection h5 with h5; injection h5 with h5; exact h5.symm
  subst hw
  rw [hr] at h6
  have hw1 : rw = receiver := by injection h6 with h6; injection h6 with h6; exact h6.symm
  subst hw1
  obtain ⟨hfs, hIDs, _⟩ := getByID_some _ _ _ _ hs
  obtain ⟨hfr, hIDr, _⟩ := getByID_some _ _ _ _ hr
  rw [heq, performTransfer_ok env sw rw a1 w hnf, hIDs, hIDr]
  refine ⟨⟨{ sw with Amount := sw.Amount - a1 }, ?_, rfl⟩,
    ⟨{ rw with Amount := rw.Amount + a1 }, ?_, rfl⟩⟩
  · simp only [WalletRepository.GetByID]
    rw [find_setAmount_other _ _ _ _ hne, find_setAmount_same, hfs]
    rfl
  · simp only [WalletRepository.GetByID]
    rw [find_setAmount_same, find_setAmount_other _ _ _ _ (Ne.symm hne), hfr]
    rfl

/-- The transfer property at a concrete input: user 10 moves 100 from wallet 1 to wallet 2. -/
theorem transfer_success_amounts_witness :
    (∃ sender1,
      WalletRepository.GetByID
        (WalletHandler.Transfer sampleEnv ⟨some 1, some (some 10)⟩ (some ⟨2, 100⟩)
          sampleWorld).2.db none 1 = .ok (some sender1) ∧ sender1.Amount = 100 - 100) ∧
    (∃ receiver1,
      WalletRepository.GetByID
        (WalletHandler.Transfer sampleEnv ⟨some 1, some (some 10)⟩ (some ⟨2, 100⟩)
          sampleWorld).2.db none 2 = .ok (some receiver1) ∧ receiver1.Amount = 0 + 100) :=
  transfer_success_amounts sampleEnv ⟨some 1, some (some 10)⟩ sampleWorld 1 2 100
    ⟨1, 10, CoinTypeBTC, 100, 0, 0⟩ ⟨2, 20, CoinTypeBTC, 0, 0, 0⟩ rfl (by rfl) (by rfl)
    (by decide)
    (by
      simp [WalletHandler.Transfer, TransferRequest.ShouldBindJSON, WalletRepository.GetByID,
        WalletHandler.performTransfer, TransactionManager.ExecuteTransaction,
        WalletHandler.transferFn, TransactionRepository.CreateTransaction,
        WalletRepository.UpdateAmount, TransactionRepository.CreateTransactionEntry,
        Tx.Commit, sampleEnv, sampleWorld])

/-- C5: when `Transfer` from wallet `s` to wallet `r` with amount `a` answers
200, the transactions are the old ones followed by one new TRANSFER/DONE row
and the entries are the old ones followed by exactly two rows with that
transaction id and amount `a`: OUT on `s` with counterparty `r`, then IN on
`r` with counterparty `s`. The signed amounts of the two new rows sum to
zero, and so does the signed sum of the entries of the new transaction in
the table whenever no older entry already carried its id. -/
theorem transfer_success_entries (env : Env) (c : Context) (w : World) (s r : UUID)
    (a : Decimal)
    (hparam : c.wallet_id = some s)
    (hok : (WalletHandler.Transfer env c (some ⟨r, a⟩) w).1.status = 200) :
    (WalletHandler.Transfer env c (some ⟨r, a⟩) w).2.db.transactions =
      w.db.transactions ++
        [⟨env.newUUID 0, TransactionTypeTransfer, TransactionStatusDone, env.now⟩] ∧
    (WalletHandler.Transfer env c (some ⟨r, a⟩) w).2.db.transaction_entries =
      w.db.transaction_entries ++
        [⟨env.newUUID 1, env.newUUID 0, s, DirectionOut, a, some r, env.now⟩,
         ⟨env.newUUID 2, env.newUUID 0, r, DirectionIn, a, some s, env.now⟩] ∧
    signedAmount ⟨env.newUUID 1, env.newUUID 0, s, DirectionOut, a, some r, env.now⟩ +
      signedAmount ⟨env.newUUID 2, env.newUUID 0, r, DirectionIn, a, some s, env.now⟩ = 0 ∧
    ((∀ e ∈ w.db.transaction_entries, e.TxnID ≠ env.newUUID 0) →
      signedSum (env.newUUID 0)
        (WalletHandler.Transfer env c (some ⟨r, a⟩) w).2.db.transaction_entries = 0) := by
  obtain ⟨s1, userID, r1, a1, sw, rw, h1, _, h3, _, h5, _, h6, _, hnf, heq⟩ :=
    transfer_inv env c _ w hok
  have hid : s1 = s := by rw [h1] at hparam; exact Option.some.inj hparam
  subst hid
  have hb : r1 = r ∧ a1 = a := by
    injection h3 with h3; injection h3 with h3 h4; exact ⟨h3.symm, h4.symm⟩
  obtain ⟨hr1, ha1⟩ := hb
  subst hr1 ha1
  obtain ⟨_, hIDs, _⟩ := getByID_some _ _ _ _ h5
  obtain ⟨_, hIDr, _⟩ := getByID_some _ _ _ _ h6
  have hsum : signedAmount ⟨env.newUUID 1, env.newUUID 0, s1, DirectionOut, a1, some r1, env.now⟩ +
      signedAmount ⟨env.newUUID 2, env.newUUID 0, r1, DirectionIn, a1, some s1, env.now⟩ = 0 := by
    simp [signedAmount, DirectionIn, DirectionOut]
  rw [heq, performTransfer_ok env sw rw a1 w hnf, hIDs, hIDr]
  refine ⟨rfl, rfl, hsum, ?_⟩
  intro hfresh
  have hold : w.db.transaction_entries.filter (fun e => e.TxnID == env.newUUID 0) = [] := by
    rw [List.filter_eq_nil_iff]
    intro e he
    simpa using hfresh e he
  simp only [signedSum, List.filter_append, hold, List.nil_append]
  simpa [List.filter] using hsum

/-- The entries of a transfer at a concrete input: user 10 moves 100 from wallet 1 to wallet 2. -/
theorem transfer_success_entries_witness :
    (WalletHandler.Transfer sampleEnv ⟨some 1, some (some 10)⟩ (some ⟨2, 100⟩)
        sampleWorld).2.db.transactions =
      [] ++ [⟨100, TransactionTypeTransfer, TransactionStatusDone, 7⟩] ∧
    (WalletHandler.Transfer sampleEnv ⟨some 1, some (some 10)⟩ (some ⟨2, 100⟩)
        sampleWorld).2.db.transaction_entries =
      [] ++ [⟨101, 100, 1, DirectionOut, 100, some 2, 7⟩,
             ⟨102, 100, 2, DirectionIn, 100, some 1, 7⟩] ∧
    signedAmount ⟨101, 100, 1, DirectionOut, 100, some 2, 7⟩ +
      signedAmount ⟨102, 100, 2, DirectionIn, 100, some 1, 7⟩ = 0 ∧
    ((∀ e ∈ sampleWorld.db.transaction_entries, e.TxnID ≠ 100) →
      signedSum 100
        (WalletHandler.Transfer sampleEnv ⟨some 1, some (some 10)⟩ (some ⟨2, 100⟩)
          sampleWorld).2.db.transaction_entries = 0) :=
  transfer_success_entries sampleEnv ⟨some 1, some (some 10)⟩ sampleWorld 1 2 100 rfl
    (by
      simp [WalletHandler.Transfer, TransferRequest.ShouldBindJSON, WalletRepository.GetByID,
        WalletHandler.performTransfer, TransactionManager.ExecuteTransaction,
        WalletHandler.transferFn, TransactionRepository.CreateTransaction,
        WalletRepository.UpdateAmount, TransactionRepository.CreateTransactionEntry,
        Tx.Commit, sampleEnv, sampleWorld])

/-- C6 (the code at the failing input): a transfer of 100 from wallet 1 to
wallet 1 itself passes every check of `Transfer`, is answered 200, and
leaves wallet 1 with 200 instead of 100: the total of the stored amounts
grows from 100 to 200. -/
theorem self_transfer_creates_money :
    (WalletHandler.Transfer sampleEnv ⟨some 1, some (some 10)⟩ (some ⟨1, 100⟩) sampleWorld).1 =
      ⟨200, .message "Transfer successful" 100⟩ ∧
    totalAmount sampleWorld.db = 100 ∧
    totalAmount
      (WalletHandler.Transfer sampleEnv ⟨some 1, some (some 10)⟩ (some ⟨1, 100⟩)
        sampleWorld).2.db = 200 := by
  refine ⟨?_, ?_, ?_⟩
  · simp [WalletHandler.Transfer, TransferRequest.ShouldBindJSON, WalletRepository.GetByID,
      WalletHandler.performTransfer, TransactionManager.ExecuteTransaction,
      WalletHandler.transferFn, TransactionRepository.CreateTransaction,
      WalletRepository.UpdateAmount, TransactionRepository.CreateTransactionEntry,
      Tx.Commit, sampleEnv, sampleWorld]
  · simp [totalAmount, sampleWorld]
  · simp [WalletHandler.Transfer, TransferRequest.ShouldBindJSON, WalletRepository.GetByID,
      WalletHandler.performTransfer, TransactionManager.ExecuteTransaction,
      WalletHandler.transferFn, TransactionRepository.CreateTransaction,
      WalletRepository.UpdateAmount, TransactionRepository.CreateTransactionEntry,
      Tx.Commit, sampleEnv, sampleWorld, totalAmount, setAmount]
    norm_num

/-- C7 (the code at the failing input): every amount stored in the sample
world is non-negative, wallet 1 holding 100. Its owner deposits -150: the
body is bound, the deposit enters its unit of work and is answered 200, and
wallet 1 is stored with 100 + (-150) = -50. After this one request the
stored amounts are not all non-negative. -/
theorem negative_deposit_breaks_nonnegativity :
    NonNegative sampleWorld.db ∧
    (Request.run (Request.deposit sampleEnv ⟨some 1, some (some 10)⟩ (some ⟨-150⟩))
      sampleWorld).1 = ⟨200, .message "Deposit successful" (-150)⟩ ∧
    WalletRepository.GetByID
      (serve [Request.deposit sampleEnv ⟨some 1, some (some 10)⟩ (some ⟨-150⟩)]
        sampleWorld).db none 1 = .ok (some ⟨1, 10, CoinTypeBTC, -50, 0, 0⟩) ∧
    ¬ NonNegative
      (serve [Request.deposit sampleEnv ⟨some 1, some (some 10)⟩ (some ⟨-150⟩)]
        sampleWorld).db := by
  refine ⟨?_, ?_, ?_, ?_⟩
  · simp [NonNegative, sampleWorld]
  · simp [Request.run, WalletHandler.Deposit, DepositRequest.ShouldBindJSON,
      WalletRepository.GetByID,
      WalletHandler.performDeposit, TransactionManager.ExecuteTransaction,
      WalletHandler.depositFn, TransactionRepository.CreateTransaction,
      WalletRepository.UpdateAmount, TransactionRepository.CreateTransactionEntry,
      Tx.Commit, sampleEnv, sampleWorld]
  · simp [serve, Request.run, WalletHandler.Deposit, DepositRequest.ShouldBindJSON,
      WalletRepository.GetByID,
      WalletHandler.performDeposit, TransactionManager.ExecuteTransaction,
      WalletHandler.depositFn, TransactionRepository.CreateTransaction,
      WalletRepository.UpdateAmount, TransactionRepository.CreateTransactionEntry,
      Tx.Commit, sampleEnv, sampleWorld, setAmount]
    norm_num
  · simp [NonNegative, serve, Request.run, WalletHandler.Deposit,
      DepositRequest.ShouldBindJSON, WalletRepository.GetByID,
      WalletHandler.performDeposit, TransactionManager.ExecuteTransaction,
      WalletHandler.depositFn, TransactionRepository.CreateTransaction,
      WalletRepository.UpdateAmount, TransactionRepository.CreateTransactionEntry,
      Tx.Commit, sampleEnv, sampleWorld, setAmount]
    norm_num

/-- C8 (counterexample): wallet 1 was read with amount 100, which passes the
read-time check for a withdrawal of 60; at write time the stored amount is
30, lower than 60. The unit of work does not fail: `performWithdrawal`
returns no error, the stored amount becomes 100 - 60 = 40, and a
transaction and an entry are recorded. -/
theorem stale_withdrawal_is_applied :
    ¬ ((100 : Decimal) < 60) ∧
    WalletRepository.GetByID staleWorld.db none 1 = .ok (some ⟨1, 10, CoinTypeBTC, 30, 0, 0⟩) ∧
    (30 : Decimal) < 60 ∧
    (WalletHandler.performWithdrawal sampleEnv ⟨1, 10, CoinTypeBTC, 100, 0, 0⟩ 60 staleWorld).1 =
      none ∧
    WalletRepository.GetByID
      (WalletHandler.performWithdrawal sampleEnv ⟨1, 10, CoinTypeBTC, 100, 0, 0⟩ 60
        staleWorld).2.db none 1 = .ok (some ⟨1, 10, CoinTypeBTC, 40, 0, 0⟩) ∧
    (WalletHandler.performWithdrawal sampleEnv ⟨1, 10, CoinTypeBTC, 100, 0, 0⟩ 60
        staleWorld).2.db.transactions =
      [⟨100, TransactionTypeWithdrawal, TransactionStatusDone, 7⟩] ∧
    (WalletHandler.performWithdrawal sampleEnv ⟨1, 10, CoinTypeBTC, 100, 0, 0⟩ 60
        staleWorld).2.db.transaction_entries =
      [⟨101, 100, 1, DirectionOut, 60, none, 7⟩] := by
  refine ⟨by norm_num, rfl, by norm_num, ?_, ?_, ?_, ?_⟩
  · simp [WalletHandler.performWithdrawal, TransactionManager.ExecuteTransaction,
      WalletHandler.withdrawalFn, TransactionRepository.CreateTransaction,
      WalletRepository.UpdateAmount, TransactionRepository.CreateTransactionEntry,
      Tx.Commit, sampleEnv, staleWorld]
  · simp [WalletHandler.performWithdrawal, TransactionManager.ExecuteTransaction,
      WalletHandler.withdrawalFn, TransactionRepository.CreateTransaction,
      WalletRepository.UpdateAmount, TransactionRepository.CreateTransactionEntry,
      Tx.Commit, sampleEnv, staleWorld, WalletRepository.GetByID, setAmount]
    norm_num
  · simp [WalletHandler.performWithdrawal, TransactionManager.ExecuteTransaction,
      WalletHandler.withdrawalFn, TransactionRepository.CreateTransaction,
      WalletRepository.UpdateAmount, TransactionRepository.CreateTransactionEntry,
      Tx.Commit, sampleEnv, staleWorld]
  · simp [WalletHandler.performWithdrawal, TransactionManager.ExecuteTransaction,
      WalletHandler.withdrawalFn, TransactionRepository.CreateTransaction,
      WalletRepository.UpdateAmount, TransactionRepository.CreateTransactionEntry,
      Tx.Commit, sampleEnv, staleWorld]

/-- C8 (amended): the balance update of the unit of work of a withdrawal is an
unconditional write. For every snapshot of the wallet, every amount and
every state of the store, the unit of work fails exactly when a storage call
fails; when none fails it commits, the stored amount of the wallet becomes
the amount of the snapshot minus the requested amount whatever amount was
stored at write time, and one WITHDRAWAL/DONE transaction and one OUT entry
are recorded. -/
theorem withdrawal_update_is_unconditional (env : Env) (snapshot stored : Wallet) (a : Decimal)
    (w : World)
    (hstored : WalletRepository.GetByID w.db none snapshot.ID = .ok (some stored)) :
    ((WalletHandler.performWithdrawal env snapshot a w).1 = none ↔ env.noFault3) ∧
    (env.noFault3 →
      WalletRepository.GetByID (WalletHandler.performWithdrawal env snapshot a w).2.db none
          snapshot.ID = .ok (some { stored with Amount := snapshot.Amount - a }) ∧
      (WalletHandler.performWithdrawal env snapshot a w).2.db.transactions =
        w.db.transactions ++
          [⟨env.newUUID 0, TransactionTypeWithdrawal, TransactionStatusDone, env.now⟩] ∧
      (WalletHandler.performWithdrawal env snapshot a w).2.db.transaction_entries =
        w.db.transaction_entries ++
          [⟨env.newUUID 1, env.newUUID 0, snapshot.ID, DirectionOut, a, none, env.now⟩]) := by
  refine ⟨performWithdrawal_nil_iff env snapshot a w, fun hnf => ?_⟩
  obtain ⟨hfind, _, _⟩ := getByID_some _ _ _ _ hstored
  rw [performWithdrawal_ok env snapshot a w hnf]
  exact ⟨getByID_setAmount_same w.db _ stored _ _ _ hfind, rfl, rfl⟩

/-- The unconditional write at a concrete input: the snapshot says 100, the store says 30, 60 is withdrawn. -/
theorem withdrawal_update_is_unconditional_witness :
    ((WalletHandler.performWithdrawal sampleEnv ⟨1, 10, CoinTypeBTC, 100, 0, 0⟩ 60
        staleWorld).1 = none ↔ sampleEnv.noFault3) ∧
    (sampleEnv.noFault3 →
      WalletRepository.GetByID
          (WalletHandler.performWithdrawal sampleEnv ⟨1, 10, CoinTypeBTC, 100, 0, 0⟩ 60
            staleWorld).2.db none 1 =
        .ok (some { (⟨1, 10, CoinTypeBTC, 30, 0, 0⟩ : Wallet) with Amount := 100 - 60 }) ∧
      (WalletHandler.performWithdrawal sampleEnv ⟨1, 10, CoinTypeBTC, 100, 0, 0⟩ 60
          staleWorld).2.db.transactions =
        staleWorld.db.transactions ++
          [⟨100, TransactionTypeWithdrawal, TransactionStatusDone, 7⟩] ∧
      (WalletHandler.performWithdrawal sampleEnv ⟨1, 10, CoinTypeBTC, 100, 0, 0⟩ 60
          staleWorld).2.db.transaction_entries =
        staleWorld.db.transaction_entries ++ [⟨101, 100, 1, DirectionOut, 60, none, 7⟩]) :=
  withdrawal_update_is_unconditional sampleEnv ⟨1, 10, CoinTypeBTC, 100, 0, 0⟩
    ⟨1, 10, CoinTypeBTC, 30, 0, 0⟩ 60 staleWorld (by rfl)

/-- C9: in each of `performDeposit`, `performWithdrawal` and
`performTransfer`, when the transaction was begun and one of the repository
steps of the work function returns an error, an error is returned, the
calls made are `BeginTx`, the work function and `Rollback` (no `Commit`),
and the wallets, transactions and entries are those from before the call. -/
theorem unit_of_work_all_or_nothing (env : Env) (wallet receiver : Wallet) (a : Decimal)
    (w : World) (hb : env.beginErr = none) :
    ((∃ k, k < 3 ∧ env.execErr k ≠ none) →
      (WalletHandler.performDeposit env wallet a w).1 ≠ none ∧
      (WalletHandler.performDeposit env wallet a w).2 =
        ⟨w.db, w.calls ++ [Call.BeginTx, Call.fn, Call.Rollback]⟩) ∧
    ((∃ k, k < 3 ∧ env.execErr k ≠ none) →
      (WalletHandler.performWithdrawal env wallet a w).1 ≠ none ∧
      (WalletHandler.performWithdrawal env wallet a w).2 =
        ⟨w.db, w.calls ++ [Call.BeginTx, Call.fn, Call.Rollback]⟩) ∧
    ((∃ k, k < 5 ∧ env.execErr k ≠ none) →
      (WalletHandler.performTransfer env wallet receiver a w).1 ≠ none ∧
      (WalletHandler.performTransfer env wallet receiver a w).2 =
        ⟨w.db, w.calls ++ [Call.BeginTx, Call.fn, Call.Rollback]⟩) := by
  refine ⟨?_, ?_, ?_⟩
  · rintro ⟨k, hk, hne⟩
    have hf : (WalletHandler.depositFn env wallet a ⟨w.db, 0⟩).1 ≠ none := by
      intro hnil
      obtain ⟨h0, h1, h2⟩ := (depositFn_nil_iff env wallet a ⟨w.db, 0⟩).1 hnil
      simp only [Nat.zero_add] at h0 h1 h2
      interval_cases k <;> contradiction
    obtain ⟨h1, h2⟩ := execute_fn_err env _ w hb hf
    exact ⟨by unfold WalletHandler.performDeposit; rw [h1]; exact hf, h2⟩
  · rintro ⟨k, hk, hne⟩
    have hf : (WalletHandler.withdrawalFn env wallet a ⟨w.db, 0⟩).1 ≠ none := by
      intro hnil
      obtain ⟨h0, h1, h2⟩ := (withdrawalFn_nil_iff env wallet a ⟨w.db, 0⟩).1 hnil
      simp only [Nat.zero_add] at h0 h1 h2
      interval_cases k <;> contradiction
    obtain ⟨h1, h2⟩ := execute_fn_err env _ w hb hf
    exact ⟨by unfold WalletHandler.performWithdrawal; rw [h1]; exact hf, h2⟩
  · rintro ⟨k, hk, hne⟩
    have hf : (WalletHandler.transferFn env wallet receiver a ⟨w.db, 0⟩).1 ≠ none := by
      intro hnil
      obtain ⟨h0, h1, h2, h3, h4⟩ :=
        (transferFn_nil_iff env wallet receiver a ⟨w.db, 0⟩).1 hnil
      simp only [Nat.zero_add] at h0 h1 h2 h3 h4
      interval_cases k <;> contradiction
    obtain ⟨h1, h2⟩ := execute_fn_err env _ w hb hf
    exact ⟨by unfold WalletHandler.performTransfer; rw [h1]; exact hf, h2⟩

/-- The all-or-nothing property at a concrete input: the third statement of the unit of work fails, after the first balance update. -/
theorem unit_of_work_all_or_nothing_witness :
    ((WalletHandler.performDeposit (execFaultEnv 2) ⟨1, 10, CoinTypeBTC, 100, 0, 0⟩ 50
          sampleWorld).1 ≠ none ∧
      (WalletHandler.performDeposit (execFaultEnv 2) ⟨1, 10, CoinTypeBTC, 100, 0, 0⟩ 50
          sampleWorld).2 =
        ⟨sampleWorld.db, sampleWorld.calls ++ [Call.BeginTx, Call.fn, Call.Rollback]⟩) ∧
    ((WalletHandler.performWithdrawal (execFaultEnv 2) ⟨1, 10, CoinTypeBTC, 100, 0, 0⟩ 50
          sampleWorld).1 ≠ none ∧
      (WalletHandler.performWithdrawal (execFaultEnv 2) ⟨1, 10, CoinTypeBTC, 100, 0, 0⟩ 50
          sampleWorld).2 =
        ⟨sampleWorld.db, sampleWorld.calls ++ [Call.BeginTx, Call.fn, Call.Rollback]⟩) ∧
    ((WalletHandler.performTransfer (execFaultEnv 2) ⟨1, 10, CoinTypeBTC, 100, 0, 0⟩
          ⟨2, 20, CoinTypeBTC, 0, 0, 0⟩ 50 sampleWorld).1 ≠ none ∧
      (WalletHandler.performTransfer (execFaultEnv 2) ⟨1, 10, CoinTypeBTC, 100, 0, 0⟩
          ⟨2, 20, CoinTypeBTC, 0, 0, 0⟩ 50 sampleWorld).2 =
        ⟨sampleWorld.db, sampleWorld.calls ++ [Call.BeginTx, Call.fn, Call.Rollback]⟩) :=
  ⟨(unit_of_work_all_or_nothing (execFaultEnv 2) ⟨1, 10, CoinTypeBTC, 100, 0, 0⟩
      ⟨2, 20, CoinTypeBTC, 0, 0, 0⟩ 50 sampleWorld rfl).1
      ⟨2, by decide, by simp [execFaultEnv]⟩,
    (unit_of_work_all_or_nothing (execFaultEnv 2) ⟨1, 10, CoinTypeBTC, 100, 0, 0⟩
      ⟨2, 20, CoinTypeBTC, 0, 0, 0⟩ 50 sampleWorld rfl).2.1
      ⟨2, by decide, by simp [execFaultEnv]⟩,
    (unit_of_work_all_or_nothing (execFaultEnv 2) ⟨1, 10, CoinTypeBTC, 100, 0, 0⟩
      ⟨2, 20, CoinTypeBTC, 0, 0, 0⟩ 50 sampleWorld rfl).2.2
      ⟨2, by decide, by simp [execFaultEnv]⟩⟩

/-- C10: `ExecuteTransaction` returns no error exactly when beginning the
transaction, the work function and the commit all succeed; when the work
function succeeds and the commit fails with `e`, the error returned is
"failed to commit transaction: " followed by `e` and the tables are
unchanged; and one call runs the work function at most once. -/
theorem execute_never_swallows (env : Env) (fn : TransactionFunc) (w : World) :
    ((TransactionManager.ExecuteTransaction env fn w).1 = none ↔
      env.beginErr = none ∧ (fn ⟨w.db, 0⟩).1 = none ∧ env.commitErr = none) ∧
    (∀ e, env.beginErr = none → (fn ⟨w.db, 0⟩).1 = none → env.commitErr = some e →
      (TransactionManager.ExecuteTransaction env fn w).1 =
          some ("failed to commit transaction: " ++ e) ∧
        (TransactionManager.ExecuteTransaction env fn w).2.db = w.db) ∧
    (TransactionManager.ExecuteTransaction env fn w).2.calls.count Call.fn ≤
      w.calls.count Call.fn + 1 := by
  refine ⟨execute_nil_iff env fn w, ?_, ?_⟩
  · intro e hb hf hc
    unfold TransactionManager.ExecuteTransaction Tx.Commit Tx.Rollback
    simp [hb, hf, hc]
  · unfold TransactionManager.ExecuteTransaction Tx.Commit Tx.Rollback
    cases hb : env.beginErr <;> cases hf : (fn ⟨w.db, 0⟩).1 <;> cases hc : env.commitErr <;>
      simp [hf, List.count_append]

/-- The commit failure at a concrete input: the work of a deposit succeeds and the commit fails. -/
theorem execute_never_swallows_witness :
    (TransactionManager.ExecuteTransaction commitFaultEnv
        (WalletHandler.depositFn commitFaultEnv ⟨1, 10, CoinTypeBTC, 100, 0, 0⟩ 50)
        sampleWorld).1 = some ("failed to commit transaction: " ++ "connection reset") ∧
      (TransactionManager.ExecuteTransaction commitFaultEnv
        (WalletHandler.depositFn commitFaultEnv ⟨1, 10, CoinTypeBTC, 100, 0, 0⟩ 50)
        sampleWorld).2.db = sampleWorld.db :=
  (execute_never_swallows commitFaultEnv
    (WalletHandler.depositFn commitFaultEnv ⟨1, 10, CoinTypeBTC, 100, 0, 0⟩ 50)
    sampleWorld).2.1 "connection reset" rfl
    (by
      simp [WalletHandler.depositFn, TransactionRepository.CreateTransaction,
        WalletRepository.UpdateAmount, TransactionRepository.CreateTransactionEntry,
        commitFaultEnv, sampleEnv])
    rfl

/-- C11: for every caller id and every non-empty token, the guard admits the
request (it leaves with `next`, the key stored in the context being the key
built for the pair, and the route runs the handler) exactly when `SetNX` on
that key returns `true` with no error; when `SetNX` returns `false` with no
error the guard aborts with 409 "Duplicate request detected" and the answer
and the stores of the route do not depend on the handler. -/
theorem guard_admits_iff_created (genv : GuardEnv) (r : Redis) (userID token : String)
    (w : World) (hne : token ≠ "") :
    ((∃ key, (IdempotencyGuard genv r ⟨some userID, token⟩).1 = .next key) ↔
      (Redis.SetNX genv r (lockKey userID token) 5000).1 = (true, none)) ∧
    ((Redis.SetNX genv r (lockKey userID token) 5000).1 = (true, none) →
      (IdempotencyGuard genv r ⟨some userID, token⟩).1 = .next (lockKey userID token) ∧
      ∀ handler : World → Response × World,
        guarded genv ⟨some userID, token⟩ handler ⟨w, r⟩ =
          ((handler w).1,
            ⟨(handler w).2, (Redis.SetNX genv r (lockKey userID token) 5000).2⟩)) ∧
    ((Redis.SetNX genv r (lockKey userID token) 5000).1 = (false, none) →
      (IdempotencyGuard genv r ⟨some userID, token⟩).1 =
        .abort ⟨409, .error "Duplicate request detected"⟩ ∧
      ∀ handler : World → Response × World,
        guarded genv ⟨some userID, token⟩ handler ⟨w, r⟩ =
          (⟨409, .error "Duplicate request detected"⟩,
            ⟨w, (Redis.SetNX genv r (lockKey userID token) 5000).2⟩)) := by
  refine ⟨⟨?_, ?_⟩, ?_, ?_⟩
  · rintro ⟨key, hk⟩
    exact ((guard_next_iff genv r userID token hne key).1 hk).2
  · intro h
    exact ⟨_, (guard_next_iff genv r userID token hne _).2 ⟨rfl, h⟩⟩
  · intro h
    have hg := guard_of_created genv r userID token hne h
    exact ⟨by rw [hg], fun handler => guarded_of_next genv _ handler ⟨w, r⟩ _ _ hg⟩
  · intro h
    have hg := guard_of_existing genv r userID token hne h
    exact ⟨by rw [hg], fun handler => guarded_of_abort genv _ handler ⟨w, r⟩ _ _ hg⟩

/-- The guard at a concrete input: caller "u1" with token "t1", first on an
empty Redis (admitted), then on a Redis that holds the key (409). -/
theorem guard_admits_iff_created_witness :
    ((IdempotencyGuard sampleGuardEnv ⟨[]⟩ ⟨some "u1", "t1"⟩).1 = .next (lockKey "u1" "t1") ∧
      ∀ handler : World → Response × World,
        guarded sampleGuardEnv ⟨some "u1", "t1"⟩ handler ⟨sampleWorld, ⟨[]⟩⟩ =
          ((handler sampleWorld).1,
            ⟨(handler sampleWorld).2,
              (Redis.SetNX sampleGuardEnv ⟨[]⟩ (lockKey "u1" "t1") 5000).2⟩)) ∧
    ((IdempotencyGuard sampleGuardEnv ⟨[(lockKey "u1" "t1", 3000)]⟩ ⟨some "u1", "t1"⟩).1 =
        .abort ⟨409, .error "Duplicate request detected"⟩ ∧
      ∀ handler : World → Response × World,
        guarded sampleGuardEnv ⟨some "u1", "t1"⟩ handler
            ⟨sampleWorld, ⟨[(lockKey "u1" "t1", 3000)]⟩⟩ =
          (⟨409, .error "Duplicate request detected"⟩,
            ⟨sampleWorld,
              (Redis.SetNX sampleGuardEnv ⟨[(lockKey "u1" "t1", 3000)]⟩ (lockKey "u1" "t1")
                5000).2⟩)) :=
  ⟨(guard_admits_iff_created sampleGuardEnv ⟨[]⟩ "u1" "t1" sampleWorld (by decide)).2.1
      (by rfl),
    (guard_admits_iff_created sampleGuardEnv ⟨[(lockKey "u1" "t1", 3000)]⟩ "u1" "t1" sampleWorld
      (by decide)).2.2 (by simp [Redis.SetNX, Redis.holds, sampleGuardEnv])⟩

/-- C12: the same caller id and non-empty token are submitted twice to guarded
routes (any of the three, with any bodies), the key is not held before the
first submission, Redis answers the first one, and the second one reaches
Redis less than 5000 milliseconds after the first. Then the first is
admitted and its handler runs; the second leaves the wallets, transactions
and entries exactly as the first left them, whatever the first handler did,
and is answered 409 "Duplicate request detected" when Redis answers it (500
when Redis fails). -/
theorem duplicate_submission_rejected (parse : String → Option UUID)
    (genv1 genv2 : GuardEnv) (env1 env2 : Env) (route1 route2 : Route)
    (s1 s2 : Submission) (st : Server) (userID token : String)
    (hu1 : s1.user_id = some userID) (hk1 : s1.idempotencyKey = token)
    (hu2 : s2.user_id = some userID) (hk2 : s2.idempotencyKey = token)
    (hne : token ≠ "")
    (hfresh : st.redis.holds genv1.now (lockKey userID token) = false)
    (hup : genv1.setnxErr = none)
    (hwin : genv2.now < genv1.now + 5000) :
    (IdempotencyGuard genv1 st.redis ⟨s1.user_id, s1.idempotencyKey⟩).1 =
      .next (lockKey userID token) ∧
    (Route.serve parse genv1 env1 route1 s1 st).1 =
      (route1.handler env1 ⟨s1.wallet_id, some (parse userID)⟩ st.world).1 ∧
    (Route.serve parse genv1 env1 route1 s1 st).2.world =
      (route1.handler env1 ⟨s1.wallet_id, some (parse userID)⟩ st.world).2 ∧
    (Route.serve parse genv2 env2 route2 s2 (Route.serve parse genv1 env1 route1 s1 st).2).2.world =
      (Route.serve parse genv1 env1 route1 s1 st).2.world ∧
    (genv2.setnxErr = none →
      (Route.serve parse genv2 env2 route2 s2 (Route.serve parse genv1 env1 route1 s1 st).2).1 =
        ⟨409, .error "Duplicate request detected"⟩) ∧
    (genv2.setnxErr ≠ none →
      (Route.serve parse genv2 env2 route2 s2 (Route.serve parse genv1 env1 route1 s1 st).2).1 =
        ⟨500, .error "Failed to check idempotency"⟩) := by
  obtain ⟨u1, k1, wid1⟩ := s1
  obtain ⟨u2, k2, wid2⟩ := s2
  simp only at hu1 hk1 hu2 hk2
  subst hu1 hk1 hu2 hk2
  have hset := setnx_fresh genv1 st.redis (lockKey userID k2) 5000 hup hfresh
  have hg1 := guard_of_created genv1 st.redis userID k2 hne (by rw [hset])
  rw [hset] at hg1
  have hfirst : Route.serve parse genv1 env1 route1 ⟨some userID, k2, wid1⟩ st =
      ((route1.handler env1 ⟨wid1, some (parse userID)⟩ st.world).1,
        ⟨(route1.handler env1 ⟨wid1, some (parse userID)⟩ st.world).2,
          ⟨(lockKey userID k2, genv1.now + 5000) :: st.redis.keys⟩⟩) :=
    guarded_of_next genv1 _ _ st _ _ hg1
  have hheld := holds_after_create st.redis.keys (lockKey userID k2) genv1.now genv2.now 5000 hwin
  refine ⟨by rw [hg1], by rw [hfirst], by rw [hfirst], ?_, ?_, ?_⟩
  · rw [hfirst]
    cases herr : genv2.setnxErr with
    | none =>
      have hs2 := setnx_held genv2 _ (lockKey userID k2) 5000 herr hheld
      have hg2 := guard_of_existing genv2 _ userID k2 hne (by rw [hs2])
      unfold Route.serve
      rw [guarded_of_abort genv2 _ _ _ _ _ hg2]
    | some p =>
      obtain ⟨b, e⟩ := p
      have hs2 := setnx_error genv2 ⟨(lockKey userID k2, genv1.now + 5000) :: st.redis.keys⟩
        (lockKey userID k2) 5000 b e herr
      have hg2 := guard_of_error genv2 _ userID k2 hne b e (by rw [hs2])
      unfold Route.serve
      rw [guarded_of_abort genv2 _ _ _ _ _ hg2]
  · intro herr
    rw [hfirst]
    have hs2 := setnx_held genv2 _ (lockKey userID k2) 5000 herr hheld
    have hg2 := guard_of_existing genv2 _ userID k2 hne (by rw [hs2])
    unfold Route.serve
    rw [guarded_of_abort genv2 _ _ _ _ _ hg2]
  · intro herr
    rw [hfirst]
    cases hp : genv2.setnxErr with
    | none => exact absurd hp herr
    | some p =>
      obtain ⟨b, e⟩ := p
      have hs2 := setnx_error genv2 ⟨(lockKey userID k2, genv1.now + 5000) :: st.redis.keys⟩
        (lockKey userID k2) 5000 b e hp
      have hg2 := guard_of_error genv2 _ userID k2 hne b e (by rw [hs2])
      unfold Route.serve
      rw [guarded_of_abort genv2 _ _ _ _ _ hg2]

/-- The duplicate at a concrete input: caller "u1" deposits 50 into wallet 1
with token "t1" at time 1000 and submits a withdrawal of 30 with the same
token at time 3000. -/
theorem duplicate_submission_rejected_witness :
    (Route.serve sampleParse laterGuardEnv sampleEnv (.withdraw (some ⟨30⟩))
        ⟨some "u1", "t1", some 1⟩
        (Route.serve sampleParse sampleGuardEnv sampleEnv (.deposit (some ⟨50⟩))
          ⟨some "u1", "t1", some 1⟩ sampleServer).2).2.world =
      (Route.serve sampleParse sampleGuardEnv sampleEnv (.deposit (some ⟨50⟩))
        ⟨some "u1", "t1", some 1⟩ sampleServer).2.world ∧
    (Route.serve sampleParse laterGuardEnv sampleEnv (.withdraw (some ⟨30⟩))
        ⟨some "u1", "t1", some 1⟩
        (Route.serve sampleParse sampleGuardEnv sampleEnv (.deposit (some ⟨50⟩))
          ⟨some "u1", "t1", some 1⟩ sampleServer).2).1 =
      ⟨409, .error "Duplicate request detected"⟩ :=
  ⟨(duplicate_submission_rejected sampleParse sampleGuardEnv laterGuardEnv sampleEnv sampleEnv
      (.deposit (some ⟨50⟩)) (.withdraw (some ⟨30⟩)) ⟨some "u1", "t1", some 1⟩
      ⟨some "u1", "t1", some 1⟩ sampleServer "u1" "t1" rfl rfl rfl rfl (by decide) (by rfl)
      rfl (by decide)).2.2.2.1,
    (duplicate_submission_rejected sampleParse sampleGuardEnv laterGuardEnv sampleEnv sampleEnv
      (.deposit (some ⟨50⟩)) (.withdraw (some ⟨30⟩)) ⟨some "u1", "t1", some 1⟩
      ⟨some "u1", "t1", some 1⟩ sampleServer "u1" "t1" rfl rfl rfl rfl (by decide) (by rfl)
      rfl (by decide)).2.2.2.2.1 rfl⟩

/-- C13: when the `X-Idempotency-Key` header is empty the guard aborts
without touching Redis, with 400 "X-Idempotency-Key header required" for
every caller whose id is in the context, and the answer and the stores of the
route do not depend on the handler, which is not run. -/
theorem empty_token_rejected (genv : GuardEnv) (r : Redis) (c : GuardContext) (w : World)
    (hempty : c.idempotencyKey = "") :
    (∃ resp, IdempotencyGuard genv r c = (.abort resp, r) ∧
      ∀ handler : World → Response × World, guarded genv c handler ⟨w, r⟩ = (resp, ⟨w, r⟩)) ∧
    (∀ userID, c.user_id = some userID →
      IdempotencyGuard genv r c =
        (.abort ⟨400, .error "X-Idempotency-Key header required"⟩, r)) := by
  obtain ⟨uid, key⟩ := c
  simp only at hempty
  subst hempty
  cases uid with
  | none =>
    have hg : IdempotencyGuard genv r ⟨none, ""⟩ =
        (.abort ⟨401, .error "User ID not found in context"⟩, r) := rfl
    refine ⟨⟨_, hg, fun handler => guarded_of_abort genv _ handler ⟨w, r⟩ _ _ hg⟩, ?_⟩
    intro userID hu
    simp at hu
  | some u =>
    have hg : IdempotencyGuard genv r ⟨some u, ""⟩ =
        (.abort ⟨400, .error "X-Idempotency-Key header required"⟩, r) := by
      simp [IdempotencyGuard]
    exact ⟨⟨_, hg, fun handler => guarded_of_abort genv _ handler ⟨w, r⟩ _ _ hg⟩,
      fun _ _ => hg⟩

/-- The empty token at a concrete input: caller "u1" sends no header. -/
theorem empty_token_rejected_witness :
    IdempotencyGuard sampleGuardEnv ⟨[]⟩ ⟨some "u1", ""⟩ =
      (.abort ⟨400, .error "X-Idempotency-Key header required"⟩, ⟨[]⟩) :=
  (empty_token_rejected sampleGuardEnv ⟨[]⟩ ⟨some "u1", ""⟩ sampleWorld rfl).2 "u1" rfl

/-- C14: for every caller id and non-empty token, when `SetNX` returns an
error, whatever value comes with it, the guard aborts with 500 "Failed to
check idempotency" and the answer and the stores of the route do not depend
on the handler, which is not run. -/
theorem guard_fail_closed (genv : GuardEnv) (r : Redis) (userID token : String) (w : World)
    (b : Bool) (e : String) (hne : token ≠ "")
    (herr : (Redis.SetNX genv r (lockKey userID token) 5000).1 = (b, some e)) :
    (IdempotencyGuard genv r ⟨some userID, token⟩).1 =
      .abort ⟨500, .error "Failed to check idempotency"⟩ ∧
    ∀ handler : World → Response × World,
      guarded genv ⟨some userID, token⟩ handler ⟨w, r⟩ =
        (⟨500, .error "Failed to check idempotency"⟩,
          ⟨w, (Redis.SetNX genv r (lockKey userID token) 5000).2⟩) := by
  have hg := guard_of_error genv r userID token hne b e herr
  exact ⟨by rw [hg], fun handler => guarded_of_abort genv _ handler ⟨w, r⟩ _ _ hg⟩

/-- The fail-closed guard at a concrete input: Redis is down and the value
that comes with the error is `true`. -/
theorem guard_fail_closed_witness :
    (IdempotencyGuard redisDownEnv ⟨[]⟩ ⟨some "u1", "t1"⟩).1 =
      .abort ⟨500, .error "Failed to check idempotency"⟩ ∧
    ∀ handler : World → Response × World,
      guarded redisDownEnv ⟨some "u1", "t1"⟩ handler ⟨sampleWorld, ⟨[]⟩⟩ =
        (⟨500, .error "Failed to check idempotency"⟩,
          ⟨sampleWorld, (Redis.SetNX redisDownEnv ⟨[]⟩ (lockKey "u1" "t1") 5000).2⟩) :=
  guard_fail_closed redisDownEnv ⟨[]⟩ "u1" "t1" sampleWorld true
    "dial tcp: connection refused" (by decide) (by rfl)

/-- C15: when the store does not contain the wallet named in the path,
`Deposit`, `Withdraw` and `Transfer` (with it as the sender) leave the world
as it was, whatever the body, and answer 404 "Wallet not found" ("Sender
wallet not found" for a transfer) whenever the request is valid and the
read does not fail; when the store does not contain the receiver of a
transfer, `Transfer` leaves the world as it was and answers 404 "Receiver
wallet not found" whenever the request is valid, the sender wallet is read
and belongs to the caller, and the read of the receiver does not fail. The
world includes the journal of the transaction manager: no unit of work is
entered. -/
theorem missing_wallet_rejected (env : Env) (c : Context) (w : World) (walletID userID : UUID)
    (hparam : c.wallet_id = some walletID) (huser : c.user_id = some (some userID)) :
    (WalletRepository.GetByID w.db none walletID = .ok none →
      (∀ body, (WalletHandler.Deposit env c body w).2 = w) ∧
      (∀ body, (WalletHandler.Withdraw env c body w).2 = w) ∧
      (∀ body, (WalletHandler.Transfer env c body w).2 = w) ∧
      (env.readErr 0 = none →
        (∀ a, 0 < a →
          (WalletHandler.Deposit env c (some ⟨a⟩) w).1 = ⟨404, .error "Wallet not found"⟩) ∧
        (∀ a, 0 < a →
          (WalletHandler.Withdraw env c (some ⟨a⟩) w).1 = ⟨404, .error "Wallet not found"⟩) ∧
        (∀ r a, r ≠ 0 → 0 < a →
          (WalletHandler.Transfer env c (some ⟨r, a⟩) w).1 =
            ⟨404, .error "Sender wallet not found"⟩))) ∧
    (∀ r a, WalletRepository.GetByID w.db none r = .ok none →
      (WalletHandler.Transfer env c (some ⟨r, a⟩) w).2 = w ∧
      (∀ sender,
        WalletRepository.GetByID w.db (env.readErr 0) walletID = .ok (some sender) →
        sender.UserID = userID → env.readErr 1 = none → r ≠ 0 → 0 < a →
        (WalletHandler.Transfer env c (some ⟨r, a⟩) w).1 =
          ⟨404, .error "Receiver wallet not found"⟩)) := by
  obtain ⟨wid, uid⟩ := c
  simp only at hparam huser
  subst hparam huser
  refine ⟨fun hmiss => ?_, fun r a hmiss => ?_⟩
  · have hfind : w.db.wallets.find? (fun x => x.ID == walletID) = none := by
      simpa [WalletRepository.GetByID] using hmiss
    refine ⟨fun body => deposit_missing_world env _ body w walletID rfl hfind,
      fun body => withdraw_missing_world env _ body w walletID rfl hfind,
      fun body => transfer_missing_sender_world env _ body w walletID rfl hfind,
      fun hread => ⟨?_, ?_, ?_⟩⟩
    · intro a ha
      simp [WalletHandler.Deposit, DepositRequest.ShouldBindJSON, ha, hread, hmiss]
    · intro a ha
      simp [WalletHandler.Withdraw, WithdrawRequest.ShouldBindJSON, ha, hread, hmiss]
    · intro r a hr ha
      simp [WalletHandler.Transfer, TransferRequest.ShouldBindJSON, ha, hr, hread, hmiss]
  · have hfind : w.db.wallets.find? (fun x => x.ID == r) = none := by
      simpa [WalletRepository.GetByID] using hmiss
    refine ⟨transfer_missing_receiver_world env _ r a w hfind, ?_⟩
    intro sender hs hown hread hr ha
    simp [WalletHandler.Transfer, TransferRequest.ShouldBindJSON, ha, hr, hs, hown, hread, hmiss]

/-- The missing wallet at a concrete input: user 10 names wallet 9, which the
sample store does not contain, and then wallet 1 with the receiver 9. -/
theorem missing_wallet_rejected_witness :
    ((WalletHandler.Deposit sampleEnv ⟨some 9, some (some 10)⟩ (some ⟨50⟩) sampleWorld).2 =
        sampleWorld ∧
      (WalletHandler.Deposit sampleEnv ⟨some 9, some (some 10)⟩ (some ⟨50⟩) sampleWorld).1 =
        ⟨404, .error "Wallet not found"⟩) ∧
    ((WalletHandler.Transfer sampleEnv ⟨some 1, some (some 10)⟩ (some ⟨9, 50⟩) sampleWorld).2 =
        sampleWorld ∧
      (WalletHandler.Transfer sampleEnv ⟨some 1, some (some 10)⟩ (some ⟨9, 50⟩) sampleWorld).1 =
        ⟨404, .error "Receiver wallet not found"⟩) :=
  ⟨⟨((missing_wallet_rejected sampleEnv ⟨some 9, some (some 10)⟩ sampleWorld 9 10 rfl rfl).1
        (by rfl)).1 (some ⟨50⟩),
      (((missing_wallet_rejected sampleEnv ⟨some 9, some (some 10)⟩ sampleWorld 9 10 rfl rfl).1
        (by rfl)).2.2.2 rfl).1 50 (by norm_num)⟩,
    ⟨((missing_wallet_rejected sampleEnv ⟨some 1, some (some 10)⟩ sampleWorld 1 10 rfl rfl).2
        9 50 (by rfl)).1,
      ((missing_wallet_rejected sampleEnv ⟨some 1, some (some 10)⟩ sampleWorld 1 10 rfl rfl).2
        9 50 (by rfl)).2 ⟨1, 10, CoinTypeBTC, 100, 0, 0⟩ (by rfl) rfl rfl (by decide)
        (by norm_num)⟩⟩

/-- C16 (the code at the failing inputs): the owner of wallet 1, which holds
100, deposits 0, withdraws -5 and transfers -50 to wallet 2, which holds 0,
each time from the sample world. None of the three requests is rejected:
each body is bound, each request enters its unit of work and is answered
200. The deposit of 0 records a transaction and an entry; the withdrawal of
-5 stores 100 - (-5) = 105 for wallet 1; the transfer of -50 stores
100 - (-50) = 150 for wallet 1 and 0 + (-50) = -50 for wallet 2. -/
theorem nonpositive_amounts_are_accepted :
    ((WalletHandler.Deposit sampleEnv ⟨some 1, some (some 10)⟩ (some ⟨0⟩) sampleWorld).1 =
        ⟨200, .message "Deposit successful" 0⟩ ∧
      (WalletHandler.Deposit sampleEnv ⟨some 1, some (some 10)⟩ (some ⟨0⟩)
          sampleWorld).2.db.transactions =
        [⟨100, TransactionTypeDeposit, TransactionStatusDone, 7⟩] ∧
      (WalletHandler.Deposit sampleEnv ⟨some 1, some (some 10)⟩ (some ⟨0⟩)
          sampleWorld).2.db.transaction_entries =
        [⟨101, 100, 1, DirectionIn, 0, none, 7⟩]) ∧
    ((WalletHandler.Withdraw sampleEnv ⟨some 1, some (some 10)⟩ (some ⟨-5⟩) sampleWorld).1 =
        ⟨200, .message "Withdrawal successful" (-5)⟩ ∧
      WalletRepository.GetByID
        (WalletHandler.Withdraw sampleEnv ⟨some 1, some (some 10)⟩ (some ⟨-5⟩)
          sampleWorld).2.db none 1 = .ok (some ⟨1, 10, CoinTypeBTC, 105, 0, 0⟩)) ∧
    ((WalletHandler.Transfer sampleEnv ⟨some 1, some (some 10)⟩ (some ⟨2, -50⟩)
          sampleWorld).1 = ⟨200, .message "Transfer successful" (-50)⟩ ∧
      WalletRepository.GetByID
        (WalletHandler.Transfer sampleEnv ⟨some 1, some (some 10)⟩ (some ⟨2, -50⟩)
          sampleWorld).2.db none 1 = .ok (some ⟨1, 10, CoinTypeBTC, 150, 0, 0⟩) ∧
      WalletRepository.GetByID
        (WalletHandler.Transfer sampleEnv ⟨some 1, some (some 10)⟩ (some ⟨2, -50⟩)
          sampleWorld).2.db none 2 = .ok (some ⟨2, 20, CoinTypeBTC, -50, 0, 0⟩)) := by
  refine ⟨⟨?_, ?_, ?_⟩, ⟨?_, ?_⟩, ?_, ?_, ?_⟩
  · simp [WalletHandler.Deposit, DepositRequest.ShouldBindJSON, WalletRepository.GetByID,
      WalletHandler.performDeposit, TransactionManager.ExecuteTransaction,
      WalletHandler.depositFn, TransactionRepository.CreateTransaction,
      WalletRepository.UpdateAmount, TransactionRepository.CreateTransactionEntry,
      Tx.Commit, sampleEnv, sampleWorld]
  · simp [WalletHandler.Deposit, DepositRequest.ShouldBindJSON, WalletRepository.GetByID,
      WalletHandler.performDeposit, TransactionManager.ExecuteTransaction,
      WalletHandler.depositFn, TransactionRepository.CreateTransaction,
      WalletRepository.UpdateAmount, TransactionRepository.CreateTransactionEntry,
      Tx.Commit, sampleEnv, sampleWorld]
  · simp [WalletHandler.Deposit, DepositRequest.ShouldBindJSON, WalletRepository.GetByID,
      WalletHandler.performDeposit, TransactionManager.ExecuteTransaction,
      WalletHandler.depositFn, TransactionRepository.CreateTransaction,
      WalletRepository.UpdateAmount, TransactionRepository.CreateTransactionEntry,
      Tx.Commit, sampleEnv, sampleWorld]
  · simp [WalletHandler.Withdraw, WithdrawRequest.ShouldBindJSON, WalletRepository.GetByID,
      WalletHandler.performWithdrawal, TransactionManager.ExecuteTransaction,
      WalletHandler.withdrawalFn, TransactionRepository.CreateTransaction,
      WalletRepository.UpdateAmount, TransactionRepository.CreateTransactionEntry,
      Tx.Commit, sampleEnv, sampleWorld]
    norm_num
  · simp [WalletHandler.Withdraw, WithdrawRequest.ShouldBindJSON, WalletRepository.GetByID,
      WalletHandler.performWithdrawal, TransactionManager.ExecuteTransaction,
      WalletHandler.withdrawalFn, TransactionRepository.CreateTransaction,
      WalletRepository.UpdateAmount, TransactionRepository.CreateTransactionEntry,
      Tx.Commit, sampleEnv, sampleWorld, setAmount]
    norm_num
  · simp [WalletHandler.Transfer, TransferRequest.ShouldBindJSON, WalletRepository.GetByID,
      WalletHandler.performTransfer, TransactionManager.ExecuteTransaction,
      WalletHandler.transferFn, TransactionRepository.CreateTransaction,
      WalletRepository.UpdateAmount, TransactionRepository.CreateTransactionEntry,
      Tx.Commit, sampleEnv, sampleWorld]
    norm_num
  · simp [WalletHandler.Transfer, TransferRequest.ShouldBindJSON, WalletRepository.GetByID,
      WalletHandler.performTransfer, TransactionManager.ExecuteTransaction,
      WalletHandler.transferFn, TransactionRepository.CreateTransaction,
      WalletRepository.UpdateAmount, TransactionRepository.CreateTransactionEntry,
      Tx.Commit, sampleEnv, sampleWorld, setAmount]
    norm_num
  · simp [WalletHandler.Transfer, TransferRequest.ShouldBindJSON, WalletRepository.GetByID,
      WalletHandler.performTransfer, TransactionManager.ExecuteTransaction,
      WalletHandler.transferFn, TransactionRepository.CreateTransaction,
      WalletRepository.UpdateAmount, TransactionRepository.CreateTransactionEntry,
      Tx.Commit, sampleEnv, sampleWorld, setAmount]
    norm_num

/-- C17 (counterexample): the same deposit of 50 into wallet 1 is served twice
from the same world, `uuid.New()` drawing 100 for the transaction the first
time and 200 the second time. Both are answered 200 and the two answers are
equal, message and amount: the answer does not tell the two transaction
identities apart, so it does not contain them. -/
theorem deposit_answer_lacks_transaction_id :
    (WalletHandler.Deposit sampleEnv ⟨some 1, some (some 10)⟩ (some ⟨50⟩) sampleWorld).1 =
      ⟨200, .message "Deposit successful" 50⟩ ∧
    (WalletHandler.Deposit otherIdsEnv ⟨some 1, some (some 10)⟩ (some ⟨50⟩) sampleWorld).1 =
      ⟨200, .message "Deposit successful" 50⟩ ∧
    (WalletHandler.Deposit sampleEnv ⟨some 1, some (some 10)⟩ (some ⟨50⟩)
        sampleWorld).2.db.transactions =
      [⟨100, TransactionTypeDeposit, TransactionStatusDone, 7⟩] ∧
    (WalletHandler.Deposit otherIdsEnv ⟨some 1, some (some 10)⟩ (some ⟨50⟩)
        sampleWorld).2.db.transactions =
      [⟨200, TransactionTypeDeposit, TransactionStatusDone, 7⟩] := by
  refine ⟨?_, ?_, ?_, ?_⟩ <;>
    simp [WalletHandler.Deposit, DepositRequest.ShouldBindJSON, WalletRepository.GetByID,
      WalletHandler.performDeposit, TransactionManager.ExecuteTransaction,
      WalletHandler.depositFn, TransactionRepository.CreateTransaction,
      WalletRepository.UpdateAmount, TransactionRepository.CreateTransactionEntry,
      Tx.Commit, sampleEnv, otherIdsEnv, sampleWorld]

/-- C17 (amended): the answer of every successful deposit is exactly the
status 200 with the message "Deposit successful" and the amount credited;
the identity of the new transaction is recorded in the store and is not part
of the answer, which is the same whatever identities `uuid.New()` draws. -/
theorem deposit_answer (env : Env) (c : Context) (w : World) (a : Decimal)
    (hok : (WalletHandler.Deposit env c (some ⟨a⟩) w).1.status = 200) :
    (WalletHandler.Deposit env c (some ⟨a⟩) w).1 = ⟨200, .message "Deposit successful" a⟩ ∧
    (WalletHandler.Deposit env c (some ⟨a⟩) w).2.db.transactions =
      w.db.transactions ++
        [⟨env.newUUID 0, TransactionTypeDeposit, TransactionStatusDone, env.now⟩] ∧
    ∀ ids : Nat → UUID,
      (WalletHandler.Deposit { env with newUUID := ids } c (some ⟨a⟩) w).1 =
        (WalletHandler.Deposit env c (some ⟨a⟩) w).1 := by
  obtain ⟨walletID, userID, a1, wallet, h1, h2, h3, h5, hown, hnf, heq⟩ :=
    deposit_inv env c _ w hok
  have ha : a1 = a := by injection h3 with h3; injection h3 with h3; exact h3.symm
  subst ha
  refine ⟨by rw [heq], by rw [heq, performDeposit_ok env wallet a1 w hnf], fun ids => ?_⟩
  have hnf1 : Env.noFault3 { env with newUUID := ids } := hnf
  obtain ⟨wid, uid⟩ := c
  simp only at h1 h2
  subst h1 h2
  have hp := performDeposit_ok env wallet a1 w hnf
  have hp1 := performDeposit_ok { env with newUUID := ids } wallet a1 w hnf1
  have h51 : WalletRepository.GetByID w.db (({ env with newUUID := ids } : Env).readErr 0)
      walletID = .ok (some wallet) := h5
  simp only [WalletHandler.Deposit, DepositRequest.ShouldBindJSON, h5, h51,
    ne_eq, hown, not_true_eq_false, if_false, hp, hp1]

/-- The answer of a deposit at a concrete input: user 10 deposits 50 into
wallet 1. -/
theorem deposit_answer_witness :
    (WalletHandler.Deposit sampleEnv ⟨some 1, some (some 10)⟩ (some ⟨50⟩) sampleWorld).1 =
      ⟨200, .message "Deposit successful" 50⟩ ∧
    (WalletHandler.Deposit sampleEnv ⟨some 1, some (some 10)⟩ (some ⟨50⟩)
        sampleWorld).2.db.transactions =
      sampleWorld.db.transactions ++
        [⟨sampleEnv.newUUID 0, TransactionTypeDeposit, TransactionStatusDone, sampleEnv.now⟩] ∧
    ∀ ids : Nat → UUID,
      (WalletHandler.Deposit { sampleEnv with newUUID := ids } ⟨some 1, some (some 10)⟩
          (some ⟨50⟩) sampleWorld).1 =
        (WalletHandler.Deposit sampleEnv ⟨some 1, some (some 10)⟩ (some ⟨50⟩) sampleWorld).1 :=
  deposit_answer sampleEnv ⟨some 1, some (some 10)⟩ sampleWorld 50
    (by
      simp [WalletHandler.Deposit, DepositRequest.ShouldBindJSON, WalletRepository.GetByID,
        WalletHandler.performDeposit, TransactionManager.ExecuteTransaction,
        WalletHandler.depositFn, TransactionRepository.CreateTransaction,
        WalletRepository.UpdateAmount, TransactionRepository.CreateTransactionEntry,
        Tx.Commit, sampleEnv, sampleWorld])

/-- C18 (counterexample): wallet 1 holds 100 and its owner submits two
withdrawals of 100. In the interleaving where both requests read the wallet
before the first unit of work starts, both are answered 200 "Withdrawal
successful": two successes and no failure, two WITHDRAWAL transactions of
100 recorded against a balance of 100. The stored amount ends at 0. -/
theorem racing_withdrawals_both_succeed :
    (withdrawRace ⟨some 1, some (some 10)⟩ 100 [sampleEnv, otherIdsEnv] sampleWorld).1 =
      [⟨200, .message "Withdrawal successful" 100⟩,
       ⟨200, .message "Withdrawal successful" 100⟩] ∧
    (withdrawRace ⟨some 1, some (some 10)⟩ 100 [sampleEnv, otherIdsEnv]
        sampleWorld).2.db.transactions =
      [⟨100, TransactionTypeWithdrawal, TransactionStatusDone, 7⟩,
       ⟨200, TransactionTypeWithdrawal, TransactionStatusDone, 7⟩] ∧
    WalletRepository.GetByID
      (withdrawRace ⟨some 1, some (some 10)⟩ 100 [sampleEnv, otherIdsEnv] sampleWorld).2.db
      none 1 = .ok (some ⟨1, 10, CoinTypeBTC, 0, 0, 0⟩) := by
  have hr1 : WalletHandler.withdrawRead sampleEnv ⟨some 1, some (some 10)⟩ (some ⟨100⟩)
      sampleWorld = .ok (⟨1, 10, CoinTypeBTC, 100, 0, 0⟩, 100) :=
    withdrawRead_ok_eval sampleEnv sampleWorld 1 10 100 ⟨1, 10, CoinTypeBTC, 100, 0, 0⟩ rfl
      (by rfl) rfl (le_refl _)
  have hr2 : WalletHandler.withdrawRead otherIdsEnv ⟨some 1, some (some 10)⟩ (some ⟨100⟩)
      sampleWorld = .ok (⟨1, 10, CoinTypeBTC, 100, 0, 0⟩, 100) :=
    withdrawRead_ok_eval otherIdsEnv sampleWorld 1 10 100 ⟨1, 10, CoinTypeBTC, 100, 0, 0⟩ rfl
      (by rfl) rfl (le_refl _)
  have hn1 : sampleEnv.noFault3 := ⟨rfl, rfl, rfl, rfl, rfl⟩
  have hn2 : otherIdsEnv.noFault3 := ⟨rfl, rfl, rfl, rfl, rfl⟩
  simp only [withdrawRace, List.map_cons, List.map_nil, hr1, hr2, withdrawWrites,
    withdrawWrite_ok_eval _ _ _ _ hn1, withdrawWrite_ok_eval _ _ _ _ hn2]
  refine ⟨trivial, ?_, ?_⟩
  · simp [sampleWorld, sampleEnv, otherIdsEnv]
  · simp [WalletRepository.GetByID, sampleWorld, setAmount]

/-- C18 (amended): the owner of a wallet that holds a positive amount submits
N >= 1 withdrawals of that whole amount, and no storage call fails. Served
one after another, exactly one of them succeeds and the other N - 1 are
answered 400 "Insufficient balance". In the concurrent interleaving where
all N requests read the wallet before the first unit of work starts, all N
succeed: the balance check is made on the amount read and the update is
unconditional. In both cases the stored amount ends at 0, and no run of
withdrawals, in turn or in such a race, with any amount and any storage
failures, makes a stored amount negative. -/
theorem withdrawals_in_turn_and_in_race (env : Env) (envs : List Env) (w : World)
    (walletID userID : UUID) (wallet : Wallet)
    (hfind : WalletRepository.GetByID w.db none walletID = .ok (some wallet))
    (hown : wallet.UserID = userID) (hpos : 0 < wallet.Amount)
    (hup : ∀ e ∈ env :: envs, e.readErr 0 = none ∧ e.noFault3) :
    (withdrawInTurn ⟨some walletID, some (some userID)⟩ wallet.Amount (env :: envs) w).1 =
      ⟨200, .message "Withdrawal successful" wallet.Amount⟩ ::
        List.replicate envs.length ⟨400, .error "Insufficient balance"⟩ ∧
    (withdrawRace ⟨some walletID, some (some userID)⟩ wallet.Amount (env :: envs) w).1 =
      List.replicate (envs.length + 1) ⟨200, .message "Withdrawal successful" wallet.Amount⟩ ∧
    WalletRepository.GetByID
        (withdrawInTurn ⟨some walletID, some (some userID)⟩ wallet.Amount (env :: envs) w).2.db
        none walletID = .ok (some { wallet with Amount := 0 }) ∧
    WalletRepository.GetByID
        (withdrawRace ⟨some walletID, some (some userID)⟩ wallet.Amount (env :: envs) w).2.db
        none walletID = .ok (some { wallet with Amount := 0 }) ∧
    (NonNegative w.db → ∀ (c : Context) (b : Decimal) (es : List Env),
      NonNegative (withdrawInTurn c b es w).2.db ∧ NonNegative (withdrawRace c b es w).2.db) := by
  obtain ⟨hf, hID, _⟩ := getByID_some _ _ _ _ hfind
  subst hID
  have hreads : ∀ e ∈ env :: envs,
      WalletHandler.withdrawRead e ⟨some wallet.ID, some (some userID)⟩
        (some ⟨wallet.Amount⟩) w = .ok (wallet, wallet.Amount) :=
    fun e he => withdrawRead_ok_eval e w wallet.ID userID wallet.Amount wallet (hup e he).1 hf
      hown (le_refl _)
  have henv := hup env (List.mem_cons_self _ _)
  have hw := withdrawWrite_ok_eval env wallet wallet.Amount w henv.2
  -- the first withdrawal served in turn
  have hfirst : WalletHandler.Withdraw env ⟨some wallet.ID, some (some userID)⟩
      (some ⟨wallet.Amount⟩) w = WalletHandler.withdrawWrite env wallet wallet.Amount w := by
    rw [withdraw_eq_read_write, hreads env (List.mem_cons_self _ _)]
  have hfind1 : (WalletHandler.withdrawWrite env wallet wallet.Amount w).2.db.wallets.find?
      (fun y => y.ID == wallet.ID) = some { wallet with Amount := 0 } := by
    rw [hw]
    simp only
    rw [find_setAmount_same, hf, sub_self]
    rfl
  have hrest := withdrawInTurn_insufficient envs
    (WalletHandler.withdrawWrite env wallet wallet.Amount w).2 wallet.ID userID wallet.Amount
    { wallet with Amount := 0 } (fun e he => (hup e (List.mem_cons_of_mem _ he)).1) hfind1 hown
    hpos
  -- the race
  have hmap : (env :: envs).map (fun e => (e, WalletHandler.withdrawRead e
        ⟨some wallet.ID, some (some userID)⟩ (some ⟨wallet.Amount⟩) w)) =
      (env :: envs).map (fun e => (e, Except.ok (wallet, wallet.Amount))) :=
    List.map_congr_left (fun e he => by rw [hreads e he])
  obtain ⟨hr1, hr2⟩ := withdrawWrites_all_ok (env :: envs) wallet wallet.Amount wallet.Amount w
    (fun e he => (hup e he).2) (by rw [hf])
  refine ⟨?_, ?_, ?_, ?_, ?_⟩
  · simp only [withdrawInTurn, hfirst, hrest]
    rw [hw]
  · unfold withdrawRace
    rw [hmap, hr1]
    rfl
  · simp only [withdrawInTurn, hfirst, hrest, WalletRepository.GetByID, hfind1]
  · unfold withdrawRace
    rw [hmap]
    simp only [WalletRepository.GetByID, hr2, List.length_cons, Nat.succ_ne_zero, if_false,
      sub_self]
  · intro hnn c b es
    exact ⟨withdrawInTurn_nonneg c b es w hnn, withdrawRace_nonneg c b es w hnn⟩

/-- The withdrawals at a concrete input: wallet 1 holds 100 and user 10
submits two withdrawals of 100. -/
theorem withdrawals_in_turn_and_in_race_witness :
    (withdrawInTurn ⟨some 1, some (some 10)⟩ 100 [sampleEnv, otherIdsEnv] sampleWorld).1 =
      ⟨200, .message "Withdrawal successful" 100⟩ ::
        List.replicate 1 ⟨400, .error "Insufficient balance"⟩ ∧
    (withdrawRace ⟨some 1, some (some 10)⟩ 100 [sampleEnv, otherIdsEnv] sampleWorld).1 =
      List.replicate 2 ⟨200, .message "Withdrawal successful" 100⟩ :=
  ⟨(withdrawals_in_turn_and_in_race sampleEnv [otherIdsEnv] sampleWorld 1 10
      ⟨1, 10, CoinTypeBTC, 100, 0, 0⟩ (by rfl) rfl (by norm_num)
      (by
        intro e he
        simp only [List.mem_cons, List.mem_singleton, List.not_mem_nil, or_false] at he
        rcases he with rfl | rfl <;> exact ⟨rfl, rfl, rfl, rfl, rfl, rfl⟩)).1,
    (withdrawals_in_turn_and_in_race sampleEnv [otherIdsEnv] sampleWorld 1 10
      ⟨1, 10, CoinTypeBTC, 100, 0, 0⟩ (by rfl) rfl (by norm_num)
      (by
        intro e he
        simp only [List.mem_cons, List.mem_singleton, List.not_mem_nil, or_false] at he
        rcases he with rfl | rfl <;> exact ⟨rfl, rfl, rfl, rfl, rfl, rfl⟩)).2.1⟩

/-- C19: whatever a Deposit, Withdraw or Transfer request is answered, the
wallets after it are the wallets before it, row by row in the same order
(none created, none deleted), with the same identity, owner, coin type,
frozen amount and creation time, and with the same amount for every wallet
that is neither the wallet of the path nor, for a transfer, the receiver
named in the body. -/
theorem movements_frame (env : Env) (c : Context) (w : World) :
    (∀ body, Frame c.wallet_id.toList w.db.wallets
      (WalletHandler.Deposit env c body w).2.db.wallets) ∧
    (∀ body, Frame c.wallet_id.toList w.db.wallets
      (WalletHandler.Withdraw env c body w).2.db.wallets) ∧
    (∀ body : Option TransferRequest,
      Frame (c.wallet_id.toList ++ (body.map (fun b => b.ReceiverWalletID)).toList)
        w.db.wallets (WalletHandler.Transfer env c body w).2.db.wallets) := by
  refine ⟨fun body => ?_, fun body => ?_, fun body => ?_⟩
  · rcases deposit_ok_or_db env c body w with hok | hdb
    · obtain ⟨walletID, _, a, wallet, h1, _, _, hread, _, hnf, heq⟩ :=
        deposit_inv env c body w hok
      obtain ⟨_, hID, _⟩ := getByID_some _ _ _ _ hread
      rw [heq, performDeposit_ok env wallet a w hnf, h1, hID]
      exact frame_setAmount _ _ _ _ (by simp)
    · rw [hdb]
      exact frame_refl _ _
  · rcases withdraw_ok_or_db env c body w with hok | hdb
    · obtain ⟨walletID, _, a, wallet, h1, _, _, hread, _, _, hnf, heq⟩ :=
        withdraw_inv env c body w hok
      obtain ⟨_, hID, _⟩ := getByID_some _ _ _ _ hread
      rw [heq, performWithdrawal_ok env wallet a w hnf, h1, hID]
      exact frame_setAmount _ _ _ _ (by simp)
    · rw [hdb]
      exact frame_refl _ _
  · rcases transfer_ok_or_db env c body w with hok | hdb
    · obtain ⟨s, _, r, a, sw, rw, h1, _, h3, _, hs, _, hr, _, hnf, heq⟩ :=
        transfer_inv env c body w hok
      obtain ⟨_, hIDs, _⟩ := getByID_some _ _ _ _ hs
      obtain ⟨_, hIDr, _⟩ := getByID_some _ _ _ _ hr
      rw [heq, performTransfer_ok env sw rw a w hnf, h1, h3, hIDs, hIDr]
      exact frame_trans _ _ _ _ (frame_setAmount _ _ _ _ (by simp))
        (frame_setAmount _ _ _ _ (by simp))
    · rw [hdb]
      exact frame_refl _ _

/-- C20: in the mock user repository, after `Create(u)` on any repository,
`GetByEmail(u.Email)` returns `u` with no error; and after any users have
been created one after another in a new repository, `GetByEmail` of an email
that is the email of none of them returns no user and no error. `Create`
itself returns no error. -/
theorem mock_lookup_undoes_create (m : MockUserRepository) (u : User) (us : List User)
    (email : String) :
    (m.Create u).2 = none ∧
    (m.Create u).1.GetByEmail u.Email = (some u, none) ∧
    (email ∉ us.map (fun x => x.Email) →
      (NewMockUserRepository.createAll us).GetByEmail email = (none, none)) := by
  refine ⟨rfl, ?_, fun hnot => ?_⟩
  · simp [MockUserRepository.Create, MockUserRepository.GetByEmail]
  · have h := createAll_absent us NewMockUserRepository email rfl hnot
    simp only [MockUserRepository.GetByEmail, h]

/-- The mock at the input of `TestAuthHandler_WithMockDependencies`: the test
user is created; "nonexistent@example.com" was never created. -/
theorem mock_lookup_undoes_create_witness :
    ((NewMockUserRepository.Create ⟨1, "Test User", "test@example.com", 0⟩).1.GetByEmail
        "test@example.com" = (some ⟨1, "Test User", "test@example.com", 0⟩, none)) ∧
    (NewMockUserRepository.createAll [⟨1, "Test User", "test@example.com", 0⟩]).GetByEmail
        "nonexistent@example.com" = (none, none) :=
  ⟨(mock_lookup_undoes_create NewMockUserRepository ⟨1, "Test User", "test@example.com", 0⟩
      [] "").2.1,
    (mock_lookup_undoes_create NewMockUserRepository ⟨1, "Test User", "test@example.com", 0⟩
      [⟨1, "Test User", "test@example.com", 0⟩] "nonexistent@example.com").2.2 (by decide)⟩

/-- C21: for caller ids that contain no ':' and any tokens, the keys
"txn_lock:<callerId>:<token>" of two pairs are equal exactly when the pairs
are equal; the key the guard stores when it admits a pair is that key; and
for two different pairs, what the guard decides for the second after it has
handled the first is what it decides for the second alone: admitting one
pair never makes a different pair a duplicate. -/
theorem lock_key_distinguishes (u1 t1 u2 t2 : String) (h1 : ':' ∉ u1.data)
    (h2 : ':' ∉ u2.data) :
    (lockKey u1 t1 = lockKey u2 t2 ↔ (u1, t1) = (u2, t2)) ∧
    (∀ (genv : GuardEnv) (r : Redis) (key : String), t1 ≠ "" →
      (IdempotencyGuard genv r ⟨some u1, t1⟩).1 = .next key → key = lockKey u1 t1) ∧
    ((u1, t1) ≠ (u2, t2) → ∀ (genv1 genv2 : GuardEnv) (r : Redis),
      (IdempotencyGuard genv2 (IdempotencyGuard genv1 r ⟨some u1, t1⟩).2 ⟨some u2, t2⟩).1 =
        (IdempotencyGuard genv2 r ⟨some u2, t2⟩).1) := by
  have hinj : lockKey u1 t1 = lockKey u2 t2 → (u1, t1) = (u2, t2) := by
    intro h
    obtain ⟨hu, ht⟩ := lockKey_injective u1 t1 u2 t2 h1 h2 h
    rw [hu, ht]
  refine ⟨⟨hinj, fun h => ?_⟩, ?_, ?_⟩
  · injection h with hu ht
    rw [hu, ht]
  · intro genv r key hne hk
    exact ((guard_next_iff genv r u1 t1 hne key).1 hk).1
  · intro hne genv1 genv2 r
    apply guard_outcome_congr
    apply guard_holds_other
    intro u hu
    simp only [Option.some.injEq] at hu
    subst hu
    exact fun h => hne (hinj h)

/-- The keys at a concrete input: callers "u1" and "u2" with the same token
"t1"; "u2" is admitted on an empty Redis whether or not "u1" went first. -/
theorem lock_key_distinguishes_witness :
    (lockKey "u1" "t1" = lockKey "u2" "t1" ↔ (("u1", "t1") : String × String) = ("u2", "t1")) ∧
    (IdempotencyGuard sampleGuardEnv
        (IdempotencyGuard sampleGuardEnv ⟨[]⟩ ⟨some "u1", "t1"⟩).2 ⟨some "u2", "t1"⟩).1 =
      (IdempotencyGuard sampleGuardEnv ⟨[]⟩ ⟨some "u2", "t1"⟩).1 :=
  ⟨(lock_key_distinguishes "u1" "t1" "u2" "t1" (by decide) (by decide)).1,
    (lock_key_distinguishes "u1" "t1" "u2" "t1" (by decide) (by decide)).2.2 (by decide)
      sampleGuardEnv sampleGuardEnv ⟨[]⟩⟩

/-- C22 (the code at the failing inputs): `GET /wallets/1/transactions` without
`limit` builds `args = [wallet id]`, so `args[:len(args)-2]` is `args[:-1]`
and the slice expression is out of bounds: the count step panics. With
`limit=10` and no `offset`, `args = [wallet id, 10]` and the slice is empty:
the count query, which has the parameter `$1`, is run without the wallet id
and fails. -/
theorem history_count_slice_fails :
    (TransactionRepository.historyQuery 1 (WalletHandler.transactionsRequest none none)).args =
      [Arg.uuid 1] ∧
    sliceTo [Arg.uuid 1] ((([Arg.uuid 1] : List Arg).length : Int) - 2) = none ∧
    TransactionRepository.historyTotal sampleWorld.db none 1
      (WalletHandler.transactionsRequest none none) = .panic ∧
    (TransactionRepository.historyQuery 1
      (WalletHandler.transactionsRequest (some 10) none)).args = [Arg.uuid 1, Arg.int 10] ∧
    sliceTo [Arg.uuid 1, Arg.int 10]
      ((([Arg.uuid 1, Arg.int 10] : List Arg).length : Int) - 2) = some [] ∧
    TransactionRepository.historyTotal sampleWorld.db none 1
      (WalletHandler.transactionsRequest (some 10) none) =
        .error "failed to get transaction count: wrong number of arguments" := by
  refine ⟨rfl, by decide, by decide, rfl, by decide, by decide⟩

/-- C23: when the wallet of the path is read and its owner is not the
authenticated user, `Deposit`, `Withdraw` and `Transfer` (the wallet being
the sender) leave the world as it was, whatever the body (no wallet,
transaction or entry changes and no unit of work is entered), and answer 403
"Access denied" whenever the body is valid. -/
theorem not_owner_rejected (env : Env) (c : Context) (w : World) (walletID userID : UUID)
    (wallet : Wallet)
    (hparam : c.wallet_id = some walletID) (huser : c.user_id = some (some userID))
    (hread : WalletRepository.GetByID w.db (env.readErr 0) walletID = .ok (some wallet))
    (hne : wallet.UserID ≠ userID) :
    ((∀ body, (WalletHandler.Deposit env c body w).2 = w) ∧
      ∀ a, 0 < a →
        (WalletHandler.Deposit env c (some ⟨a⟩) w).1 = ⟨403, .error "Access denied"⟩) ∧
    ((∀ body, (WalletHandler.Withdraw env c body w).2 = w) ∧
      ∀ a, 0 < a →
        (WalletHandler.Withdraw env c (some ⟨a⟩) w).1 = ⟨403, .error "Access denied"⟩) ∧
    ((∀ body, (WalletHandler.Transfer env c body w).2 = w) ∧
      ∀ r a, r ≠ 0 → 0 < a →
        (WalletHandler.Transfer env c (some ⟨r, a⟩) w).1 = ⟨403, .error "Access denied"⟩) := by
  obtain ⟨wid, uid⟩ := c
  simp only at hparam huser
  subst hparam huser
  refine ⟨⟨fun body => ?_, fun a ha => ?_⟩, ⟨fun body => ?_, fun a ha => ?_⟩,
    ⟨fun body => ?_, fun r a hr ha => ?_⟩⟩
  · unfold WalletHandler.Deposit
    simp only [hread, ne_eq, hne, not_false_eq_true, if_true]
    split <;> rfl
  · simp [WalletHandler.Deposit, DepositRequest.ShouldBindJSON, ha, hread, hne]
  · unfold WalletHandler.Withdraw
    simp only [hread, ne_eq, hne, not_false_eq_true, if_true]
    split <;> rfl
  · simp [WalletHandler.Withdraw, WithdrawRequest.ShouldBindJSON, ha, hread, hne]
  · unfold WalletHandler.Transfer
    simp only [hread, ne_eq, hne, not_false_eq_true, if_true]
    split <;> rfl
  · simp [WalletHandler.Transfer, TransferRequest.ShouldBindJSON, ha, hr, hread, hne]

/-- The stranger at a concrete input: user 20 names wallet 1, which belongs to
user 10. -/
theorem not_owner_rejected_witness :
    ((WalletHandler.Deposit sampleEnv ⟨some 1, some (some 20)⟩ (some ⟨50⟩) sampleWorld).2 =
        sampleWorld ∧
      (WalletHandler.Deposit sampleEnv ⟨some 1, some (some 20)⟩ (some ⟨50⟩) sampleWorld).1 =
        ⟨403, .error "Access denied"⟩) ∧
    ((WalletHandler.Transfer sampleEnv ⟨some 1, some (some 20)⟩ (some ⟨2, 50⟩) sampleWorld).2 =
        sampleWorld ∧
      (WalletHandler.Transfer sampleEnv ⟨some 1, some (some 20)⟩ (some ⟨2, 50⟩) sampleWorld).1 =
        ⟨403, .error "Access denied"⟩) :=
  ⟨⟨(not_owner_rejected sampleEnv ⟨some 1, some (some 20)⟩ sampleWorld 1 20
        ⟨1, 10, CoinTypeBTC, 100, 0, 0⟩ rfl rfl (by rfl) (by decide)).1.1 (some ⟨50⟩),
      (not_owner_rejected sampleEnv ⟨some 1, some (some 20)⟩ sampleWorld 1 20
        ⟨1, 10, CoinTypeBTC, 100, 0, 0⟩ rfl rfl (by rfl) (by decide)).1.2 50 (by norm_num)⟩,
    ⟨(not_owner_rejected sampleEnv ⟨some 1, some (some 20)⟩ sampleWorld 1 20
        ⟨1, 10, CoinTypeBTC, 100, 0, 0⟩ rfl rfl (by rfl) (by decide)).2.2.1 (some ⟨2, 50⟩),
      (not_owner_rejected sampleEnv ⟨some 1, some (some 20)⟩ sampleWorld 1 20
        ⟨1, 10, CoinTypeBTC, 100, 0, 0⟩ rfl rfl (by rfl) (by decide)).2.2.2 2 50 (by decide)
        (by norm_num)⟩⟩

end WalletService
